import Mathlib

/-!
# Verification of the Star Fox Adventures model-decoding core

A shallow embedding of the model binary decoder from
`src/StarFoxAdventures/modelloader.ts` and
`src/StarFoxAdventures/materialloader.ts`, with theorems settling the
spec's claims about shader-flag invariants, display-list table
resolution, the bit-level command-stream interpreter, the stride
recovery engine, normal-buffer padding and global-table immutability.

Machine integers are modelled as `Nat` with explicit masking where the
source relies on JavaScript 32-bit semantics; `DataView` reads are
big-endian as in the source.
-/

namespace SFA

/-! ## Byte buffers (`DataView`) -/

/-- A byte buffer: the contents of a `DataView`, one `Nat < 256` per byte. -/
abbrev Bytes := List Nat

/-- `data.getUint8(i)` as a total read (out-of-range gives 0).  In the
source an out-of-range `DataView` read throws; every use of this total
reader translates a read that sits behind a bounds guard. -/
def byteAt (d : Bytes) (i : Nat) : Nat := d.getD i 0

/-- `data.getUint16(i)` (big-endian), total flavour. -/
def u16At (d : Bytes) (i : Nat) : Nat := 256 * byteAt d i + byteAt d (i + 1)

/-- `data.getUint32(i)` (big-endian), total flavour. -/
def u32At (d : Bytes) (i : Nat) : Nat :=
  256 * (256 * (256 * byteAt d i + byteAt d (i + 1)) + byteAt d (i + 2)) + byteAt d (i + 3)

/-- `data.getInt16(i)` (big-endian): the signed reading of `u16At`. -/
def i16At (d : Bytes) (i : Nat) : Int :=
  let v := u16At d i
  if v < 0x8000 then (v : Int) else (v : Int) - 0x10000

/-- `data.getUint8(i)` as a fallible read: `none` models the `RangeError`
a `DataView` throws past the end. -/
def getU8? (d : Bytes) (i : Nat) : Option Nat := d.get? i

/-- Fallible big-endian `getUint16`. -/
def getU16? (d : Bytes) (i : Nat) : Option Nat := do
  let a ← getU8? d i
  let b ← getU8? d (i + 1)
  pure (256 * a + b)

/-- Fallible big-endian `getUint32`. -/
def getU32? (d : Bytes) (i : Nat) : Option Nat := do
  let a ← getU8? d i
  let b ← getU8? d (i + 1)
  let c ← getU8? d (i + 2)
  let e ← getU8? d (i + 3)
  pure (256 * (256 * (256 * a + b) + c) + e)

/-! ## Texture-id references

`parseModelTexId` returns `modelTexIds[idx]` (which in JavaScript may be
`undefined` when `idx` is out of range) or `null`.  The two "no texture"
values behave differently under the strict `!== null` test used for
`hasNBTTexture`, so the embedding keeps them apart. -/

inductive TexRef where
  | null : TexRef
  | undef : TexRef
  | val : Nat → TexRef
deriving DecidableEq, Repr

/-- JavaScript loose `x == null`: true for both `null` and `undefined`. -/
def TexRef.isLooseNull : TexRef → Bool
  | .null => true
  | .undef => true
  | .val _ => false

/-- `parseModelTexId(data, offs, modelTexIds)` from materialloader.ts. -/
def parseModelTexId (d : Bytes) (offs : Nat) (modelTexIds : List Nat) : TexRef :=
  let idx := u32At d offs
  if idx ≠ 0xffffffff then
    match modelTexIds.get? idx with
    | some n => .val n
    | none => .undef
  else .null

/-! ## Shader flags and attribute flags

`ShaderFlags` and `ShaderAttrFlags` live in `materials.ts`, which is not
among the sources. -/

/-- Modelled from the spec: the `ShaderFlags` render-flag bitmask of
`materials.ts` (absent from the sources).  The spec lists cull-backface,
alpha-cutout, water, lava, short/medium/long fur, reflect-skyscape,
dev-geometry-only, fog and caustic as distinct flags; the settled claims
depend only on the flags being distinct single bits, with
`CullBackface` and the `0x800`/`0x1000` lighting quirks (or-ed verbatim
in the `isold` branch) inside the low 16 bits. -/
def ShaderFlags.DevGeometry : Nat := 0x2
def ShaderFlags.Fog : Nat := 0x4
def ShaderFlags.CullBackface : Nat := 0x8
def ShaderFlags.ReflectSkyscape : Nat := 0x20
def ShaderFlags.Caustic : Nat := 0x40
def ShaderFlags.Lava : Nat := 0x80
def ShaderFlags.Reflective : Nat := 0x100
def ShaderFlags.AlphaCompare : Nat := 0x400
def ShaderFlags.ShortFur : Nat := 0x4000
def ShaderFlags.MediumFur : Nat := 0x8000
def ShaderFlags.LongFur : Nat := 0x10000
def ShaderFlags.Water : Nat := 0x80000000

/-- Modelled from the spec: `ShaderAttrFlags` of `materials.ts` (absent
from the sources); the values for CLR/TEX0/TEX1 are the fallback
constants spelled out at the top of materialloader.ts, with NRM a
further distinct bit. -/
def ShaderAttrFlags.CLR : Nat := 0x01
def ShaderAttrFlags.NRM : Nat := 0x02
def ShaderAttrFlags.TEX0 : Nat := 0x04
def ShaderAttrFlags.TEX1 : Nat := 0x08

/-- `ATTR_CLR` from materialloader.ts. -/
def ATTR_CLR : Nat := ShaderAttrFlags.CLR
/-- `ATTR_TEX0` from materialloader.ts. -/
def ATTR_TEX0 : Nat := ShaderAttrFlags.TEX0
/-- `ATTR_TEX1` from materialloader.ts. -/
def ATTR_TEX1 : Nat := ShaderAttrFlags.TEX1

/-! ## Curated texture-id tables (materialloader.ts) -/

def KNOWN_WATER_TEXIDS : List Nat := [899, 2871]

def KNOWN_WATER_TEXIDS3 : List Nat := []

def KNOWN_ANCIENT_WATER_TEXIDS : List Nat := [2373, 2794, 24, 2871, 713, 611, 2793]

def KNOWN_CUTOUT_TEXIDS_BETA : List Nat := [3254, 3272, 189]

def KNOWN_CUTOUT_TEXIDS_ANCIENT : List Nat :=
  [630, 646, 672, 1094, 1098, 1103, 1107, 1110, 1111, 1112]

def KNOWN_CUTOUT_TEXIDS_EARLY1 : List Nat := [1692, 1135, 1695, 1131, 176, 783, 785]

def KNOWN_CUTOUT_TEXIDS_EARLY3 : List Nat := [678, 675]

def KNOWN_LAVA_TEXIDS : List Nat := [584, 585, 1061, 1062, 32728, 682]

/-! ## Shader fields and records -/

/-- `ShaderFields` from materialloader.ts (absent optional booleans are
`false`). -/
structure ShaderFields where
  isAncient : Bool := false
  isBeta : Bool := false
  isold : Bool := false
  isEarly1 : Bool := false
  isEarly3 : Bool := false
  isSwapcircle : Bool := false
  size : Nat
  numLayers : Nat
  layers : Nat
deriving DecidableEq, Repr

def SFA_SHADER_FIELDS : ShaderFields :=
  { size := 0x44, numLayers := 0x41, layers := 0x24 }

def SFADEMO_MODEL_SHADER_FIELDS : ShaderFields :=
  { isBeta := true, isEarly1 := true, size := 0x40, numLayers := 0x3b, layers := 0x24 }

def SFADEMO_MAP_SHADER_FIELDS : ShaderFields :=
  { isBeta := true, isEarly1 := true, size := 0x40, numLayers := 0x3b, layers := 0x24 }

def VERY_EARLY_2001 : ShaderFields :=
  { isBeta := true, isold := true, size := 0x40, numLayers := 0x3b, layers := 0x24 }

def BETA_MAP_SHADER_FIELDS : ShaderFields :=
  { isBeta := true, isSwapcircle := true, size := 0x38, numLayers := 0x36, layers := 0x20 }

def BETA_MODEL_SHADER_FIELDS : ShaderFields :=
  { isBeta := true, size := 0x38, numLayers := 0x36, layers := 0x20 }

def ANCIENT_MAP_SHADER_FIELDS : ShaderFields :=
  { isAncient := true, size := 0x3c, numLayers := 0x3a, layers := 0x24 }

def EARLY2_MAP_SHADER_FIELDS : ShaderFields :=
  { isBeta := true, isEarly3 := true, size := 0x44, numLayers := 0x3f, layers := 0x24 }

def EARLY3_MAP_SHADER_FIELDS : ShaderFields :=
  { isBeta := true, isEarly3 := true, size := 0x44, numLayers := 0x3f, layers := 0x24 }

/-- A texture layer of a shader record. -/
structure ShaderLayer where
  texId : TexRef
  tevMode : Nat
  enableScroll : Nat
  scrollSlot : Option Nat
deriving DecidableEq, Repr

/-- The decoded `Shader` (material descriptor).  `color` components and
`reflectiveAmbFactor` are kept as the raw bytes the source divides by
`0xff` into floats; `colorNewCopy(White)` is the all-`0xff` triple. -/
structure Shader where
  layers : List ShaderLayer := []
  flags : Nat := 0
  attrFlags : Nat := 0
  hasHemisphericProbe : Bool := false
  hasReflectiveProbe : Bool := false
  reflectiveProbeMaskTexId : TexRef := .null
  reflectiveProbeIdx : Nat := 0
  reflectiveAmbFactorByte : Nat := 0
  hasNBTTexture : Bool := false
  nbtTexId : TexRef := .null
  nbtParams : Nat := 0
  furRegionsTexId : TexRef := .null
  colorR : Nat := 0xff
  colorG : Nat := 0xff
  colorB : Nat := 0xff
  isAncient : Bool := false
  isBeta : Bool := false
  normalFlags : Nat := 0
  lightFlags : Nat := 0
  texMtxCount : Nat := 0
deriving DecidableEq, Repr

/-- `parseShaderLayer` on the sub-window starting at `off`. -/
def parseShaderLayer (d : Bytes) (off : Nat) (modelTexIds : List Nat) : ShaderLayer :=
  let scrollingTexMtx := byteAt d (off + 0x6)
  { texId := parseModelTexId d (off + 0x0) modelTexIds
    tevMode := byteAt d (off + 0x4)
    enableScroll := byteAt d (off + 0x5)
    scrollSlot := if scrollingTexMtx ≠ 0 then some scrollingTexMtx else none }

/-! Helpers for the optional-chaining tests the parser performs on
`shader.layers`. -/

/-- `layers[i]?.texId != null` (loose). -/
def layerTexLoose (ls : List ShaderLayer) (i : Nat) : Bool :=
  match ls.get? i with
  | some l => !l.texId.isLooseNull
  | _ => false

/-- `layers[i]?.texId === n` (strict equality with a number). -/
def layerTexIs (ls : List ShaderLayer) (i n : Nat) : Bool :=
  match ls.get? i with
  | some l => l.texId = TexRef.val n
  | _ => false

/-- `layers[i]?.texId ?? null`, collapsed to an optional number. -/
def layerTexNum (ls : List ShaderLayer) (i : Nat) : Option Nat :=
  match ls.get? i with
  | some l =>
    match l.texId with
    | .val n => some n
    | _ => none
  | _ => none

/-- `(layers[i]?.tevMode ?? 0) & 0x7f`. -/
def layerTevMasked (ls : List ShaderLayer) (i : Nat) : Nat :=
  (match ls.get? i with
   | some l => l.tevMode
   | _ => 0) &&& 0x7f

/-- `layers[i].tevMode` with `?? 0`, unmasked (the ancient branch tests
`first.tevMode` bare). -/
def layerTevRaw (ls : List ShaderLayer) (i : Nat) : Nat :=
  match ls.get? i with
  | some l => l.tevMode
  | _ => 0

/-! ## `parseShader` family branches (materialloader.ts) -/

/-- The `fields.isAncient` branch of `parseShader`. -/
def parseShaderAncient (d : Bytes) (sh0 : Shader) : Shader :=
  let flags8 := byteAt d 0x38
  let attr := byteAt d 0x39
  let ls := sh0.layers
  let attrFlags0 := attr
  let attrFlags1 := if layerTexLoose ls 0 then attrFlags0 ||| ATTR_TEX0 else attrFlags0
  let attrFlags2 := if layerTexLoose ls 1 then attrFlags1 ||| ATTR_TEX1 else attrFlags1
  let attrFlags3 := if attrFlags2 = 0 then attrFlags2 ||| ATTR_CLR else attrFlags2
  let lowNib := flags8 &&& 0x0F
  let looksWater : Bool :=
    ((lowNib == 0x0D || lowNib == 0x0C) && layerTexLoose ls 0) ||
    (layerTexIs ls 0 1392 || layerTexIs ls 0 24 || layerTexIs ls 0 1234 ||
     layerTexIs ls 0 5678 || layerTexIs ls 0 1391) ||
    (layerTexLoose ls 0 &&
      match layerTexNum ls 0 with
      | some n => KNOWN_ANCIENT_WATER_TEXIDS.contains n
      | _ => false)
  let flags0 := ShaderFlags.CullBackface
  let flags1 := if looksWater then flags0 ||| ShaderFlags.Water else flags0
  let singleLayer : Bool := ls.length == 1
  let hasTex := layerTexLoose ls 0
  let tevPlain : Bool := ls.length != 0 &&
    (layerTevRaw ls 0 == 0x00 || layerTevRaw ls 0 == 0x01 || layerTevRaw ls 0 == 0x02)
  let isCutoutTex : Bool :=
    layerTexIs ls 0 928 || layerTexIs ls 0 791 || layerTexIs ls 0 430 || layerTexIs ls 0 573 ||
    layerTexIs ls 0 575 || layerTexIs ls 0 576 || layerTexIs ls 0 577 || layerTexIs ls 0 2882 ||
    layerTexIs ls 0 44 || layerTexIs ls 0 2046 || layerTexIs ls 0 2228 || layerTexIs ls 0 2467 ||
    layerTexIs ls 0 2538 || layerTexIs ls 0 1798 || layerTexIs ls 0 2791 || layerTexIs ls 0 574 ||
    layerTexIs ls 0 684 || layerTexIs ls 0 96 || layerTexIs ls 0 740 || layerTexIs ls 0 0 ||
    layerTexIs ls 0 595 || layerTexIs ls 0 596 || layerTexIs ls 0 593 || layerTexIs ls 0 594 ||
    layerTexIs ls 0 592 || layerTexIs ls 0 589 ||
    (layerTexLoose ls 0 &&
      match layerTexNum ls 0 with
      | some n => KNOWN_CUTOUT_TEXIDS_ANCIENT.contains n
      | _ => false)
  let flags2 :=
    if singleLayer && hasTex && !looksWater && tevPlain && isCutoutTex then
      flags1 ||| ShaderFlags.AlphaCompare
    else flags1
  { sh0 with isAncient := true, flags := flags2, attrFlags := attrFlags3 }

/-- `layers[i]?.texId == null` (loose). -/
def layerTexLooseNull (ls : List ShaderLayer) (i : Nat) : Bool :=
  match ls.get? i with
  | some l => l.texId.isLooseNull
  | _ => true

/-- The `fields.isSwapcircle` branch of `parseShader`. -/
def parseShaderSwapcircle (d : Bytes) (sh0 : Shader) : Shader :=
  let flags8 := byteAt d 0x34
  let attr := byteAt d 0x35
  let ls := sh0.layers
  let attrFlags0 := attr
  let attrFlags1 := if layerTexLoose ls 0 then attrFlags0 ||| ATTR_TEX0 else attrFlags0
  let attrFlags2 := if layerTexLoose ls 1 then attrFlags1 ||| ATTR_TEX1 else attrFlags1
  let attrFlags3 :=
    if attrFlags2 &&& (ATTR_CLR ||| ATTR_TEX0 ||| ATTR_TEX1) = 0 then attrFlags2 ||| ATTR_CLR
    else attrFlags2
  let texId0 := layerTexNum ls 0
  let texId1 := layerTexNum ls 1
  let tmode0 := layerTevMasked ls 0
  let tmode1 := layerTevMasked ls 1
  let lowNib := flags8 &&& 0x0F
  let singleLayer : Bool := ls.length == 1 || (decide (2 ≤ ls.length) && layerTexLooseNull ls 1)
  let hasTex0 : Bool := texId0 != none
  let tevPlain0 : Bool := tmode0 == 0x00 || tmode0 == 0x01 || tmode0 == 0x02 || tmode0 == 0x03
  let tevOkAny : Bool := (tmode0 == 0x02 || tmode0 == 0x03) || (tmode1 == 0x02 || tmode1 == 0x03)
  let isCutout0 : Bool :=
    match texId0 with
    | some n =>
      KNOWN_CUTOUT_TEXIDS_BETA.contains n || KNOWN_CUTOUT_TEXIDS_ANCIENT.contains n ||
      KNOWN_CUTOUT_TEXIDS_EARLY1.contains n
    | _ => false
  let flags0 := ShaderFlags.CullBackface
  let flags1 :=
    if singleLayer && hasTex0 && tevPlain0 && isCutout0 then flags0 ||| ShaderFlags.AlphaCompare
    else flags0
  let anyKnownWater : Bool :=
    (match texId0 with | some n => KNOWN_WATER_TEXIDS.contains n | _ => false) ||
    (match texId1 with | some n => KNOWN_WATER_TEXIDS.contains n | _ => false)
  let flags2 :=
    if anyKnownWater then flags1 ||| ShaderFlags.Water
    else if hasTex0 && (tevOkAny || lowNib == 0x0D || lowNib == 0x0C) then flags1 ||| ShaderFlags.Water
    else flags1
  let isLava : Bool :=
    (texId0 == some 32928 || texId0 == some 584 || texId0 == some 1061 || texId0 == some 1062 ||
     texId0 == some 585) ||
    (texId1 == some 32928 || texId1 == some 584 || texId1 == some 1061 || texId1 == some 1062 ||
     texId1 == some 585)
  let flags3 :=
    if isLava then (flags2 ||| ShaderFlags.Lava) &&& 0x7FFFFFFF
    else flags2
  { sh0 with
    isBeta := true
    flags := flags3
    attrFlags := attrFlags3
    hasHemisphericProbe := u32At d 0x08 = 1
    hasReflectiveProbe := u32At d 0x14 = 1
    hasNBTTexture := byteAt d 0x37 &&& 0x80 ≠ 0 }

/-- The `fields.isold` sub-branch of `parseShader` (inside `isBeta`). -/
def parseShaderOld (d : Bytes) (sh1 : Shader) : Shader :=
  let raw16 := u16At d 0x38
  let attr := byteAt d 0x3A
  let ls := sh1.layers
  let flags0 : Nat := 0
  let flags1 := if raw16 &&& ShaderFlags.CullBackface ≠ 0 then flags0 ||| ShaderFlags.CullBackface else flags0
  let flags2 := if raw16 &&& 0x0800 ≠ 0 then flags1 ||| 0x0800 else flags1
  let flags3 := if raw16 &&& 0x1000 ≠ 0 then flags2 ||| 0x1000 else flags2
  let texId := layerTexNum ls 0
  let tmode := layerTevMasked ls 0
  let tevOk : Bool := tmode == 0x02 || tmode == 0x03
  let lowNib := raw16 &&& 0x0F
  let singleLayer : Bool := ls.length == 1 || (decide (2 ≤ ls.length) && layerTexLooseNull ls 1)
  let hasTex : Bool := texId != none
  let tevPlain : Bool := tmode == 0x00 || tmode == 0x01 || tmode == 0x02
  let isCutoutTex : Bool :=
    texId == some 177 || texId == some 526 || texId == some 525 || texId == some 982 ||
    texId == some 536 || texId == some 1294 || texId == some 1295 || texId == some 418 ||
    texId == some 88 || texId == some 571 || texId == some 44 || texId == some 668 ||
    texId == some 417 || texId == some 2090 || texId == some 568 || texId == some 567 ||
    texId == some 638 || texId == some 810 || texId == some 2094 || texId == some 691 ||
    texId == some 944 || texId == some 7 || texId == some 769 || texId == some 767 ||
    texId == some 1156 || texId == some 996 || texId == some 811 || texId == some 2056 ||
    texId == some 189 || texId == some 176 ||
    (match texId with | some n => KNOWN_CUTOUT_TEXIDS_ANCIENT.contains n | _ => false) ||
    (match texId with | some n => KNOWN_CUTOUT_TEXIDS_EARLY1.contains n | _ => false)
  let flags4 :=
    if singleLayer && hasTex && tevPlain && isCutoutTex then flags3 ||| ShaderFlags.AlphaCompare
    else flags3
  let flags7 :=
    if hasTex && !isCutoutTex then
      let isKnownWater : Bool :=
        match texId with | some n => KNOWN_WATER_TEXIDS.contains n | _ => false
      let strongById : Bool := texId == some 899 || isKnownWater
      let heurWater : Bool := isKnownWater && tevOk && (lowNib == 0x0D || lowNib == 0x0C)
      let flags5 := if strongById || heurWater then flags4 ||| ShaderFlags.Water else flags4
      let isLavaTexId : Bool :=
        texId == some 457 || texId == some 584 || texId == some 1061 || texId == some 1062 ||
        texId == some 585
      if isLavaTexId then (flags5 ||| ShaderFlags.Lava) &&& 0x7FFFFFFF else flags5
    else flags4
  { sh1 with flags := flags7, attrFlags := attr }

/-- `translateEarly1Flags` from materialloader.ts (the commented-out bits
of `Early1Bits` translate nothing). -/
def translateEarly1Flags (raw16 : Nat) : Nat :=
  let out0 : Nat := 0
  let out1 := if raw16 &&& 0x0008 ≠ 0 then out0 ||| ShaderFlags.CullBackface else out0
  let out2 := if raw16 &&& 0x0020 ≠ 0 then out1 ||| ShaderFlags.ReflectSkyscape else out1
  let out3 := if raw16 &&& 0x0040 ≠ 0 then out2 ||| ShaderFlags.AlphaCompare else out2
  let out4 := if raw16 &&& 0x0100 ≠ 0 then out3 ||| ShaderFlags.AlphaCompare else out3
  let out5 := if raw16 &&& 0x4000 ≠ 0 then out4 ||| ShaderFlags.ShortFur else out4
  let out6 := if raw16 &&& 0x8000 ≠ 0 then out5 ||| ShaderFlags.MediumFur else out5
  out6

/-- The `fields.isEarly1` sub-branch of `parseShader` (inside `isBeta`).
`flags &= ~ShaderFlags.DevGeometry` is the 32-bit mask `0xFFFFFFFD`. -/
def parseShaderEarly1 (d : Bytes) (sh1 : Shader) : Shader :=
  let raw16 := u16At d 0x38
  let ls := sh1.layers
  let flags0 := translateEarly1Flags raw16 &&& 0xFFFFFFFD
  let attrFlags0 := byteAt d 0x3A
  let attrFlags1 := if layerTexLoose ls 0 then attrFlags0 ||| ATTR_TEX0 else attrFlags0
  let attrFlags2 := if layerTexLoose ls 1 then attrFlags1 ||| ATTR_TEX1 else attrFlags1
  let attrFlags3 :=
    if attrFlags2 &&& (ATTR_CLR ||| ATTR_TEX0 ||| ATTR_TEX1) = 0 then attrFlags2 ||| ATTR_CLR
    else attrFlags2
  let tm0 := layerTevMasked ls 0
  let tm1 := layerTevMasked ls 1
  let lowNib := raw16 &&& 0x0F
  let tevOk : Bool := (tm0 == 0x02 || tm0 == 0x03) || (tm1 == 0x02 || tm1 == 0x03)
  let flags1 :=
    if (lowNib == 0x0C || lowNib == 0x0D) && tevOk then flags0 ||| ShaderFlags.Water else flags0
  { sh1 with
    flags := flags1
    attrFlags := attrFlags3
    colorR := byteAt d 0x04
    colorG := byteAt d 0x05
    colorB := byteAt d 0x06 }

/-- `translateEarly3Flags` from materialloader.ts. -/
def translateEarly3Flags (raw16 : Nat) : Nat :=
  let out0 : Nat := 0
  let out1 := if raw16 &&& 0x0002 ≠ 0 then out0 ||| ShaderFlags.DevGeometry else out0
  let out2 := if raw16 &&& 0x0004 ≠ 0 then out1 ||| ShaderFlags.Fog else out1
  let out3 := if raw16 &&& 0x0008 ≠ 0 then out2 ||| ShaderFlags.CullBackface else out2
  let out4 := if raw16 &&& 0x0020 ≠ 0 then out3 ||| ShaderFlags.ReflectSkyscape else out3
  let out5 := if raw16 &&& 0x0040 ≠ 0 then out4 ||| ShaderFlags.Caustic else out4
  let out6 := if raw16 &&& 0x0100 ≠ 0 then out5 ||| ShaderFlags.Reflective else out5
  let out7 := if raw16 &&& 0x0400 ≠ 0 then out6 ||| ShaderFlags.AlphaCompare else out6
  let out8 := if raw16 &&& 0x4000 ≠ 0 then out7 ||| ShaderFlags.AlphaCompare else out7
  out8

/-- The `fields.isEarly3` sub-branch of `parseShader` (inside `isBeta`).
`hasNBTTexture` uses the strict `!== null` test, which is true for an
out-of-range (`undefined`) texture-id lookup. -/
def parseShaderEarly3 (d : Bytes) (modelTexIds : List Nat) (sh1 : Shader) : Shader :=
  let raw16 := u16At d 0x3c
  let ls := sh1.layers
  let flags0 := translateEarly3Flags raw16
  let attrFlags0 := byteAt d 0x3e
  let attrFlags1 := if layerTexLoose ls 0 then attrFlags0 ||| ATTR_TEX0 else attrFlags0
  let attrFlags2 := if layerTexLoose ls 1 then attrFlags1 ||| ATTR_TEX1 else attrFlags1
  let attrFlags3 :=
    if attrFlags2 &&& (ATTR_CLR ||| ATTR_TEX0 ||| ATTR_TEX1) = 0 then attrFlags2 ||| ATTR_CLR
    else attrFlags2
  let nbt := parseModelTexId d 0x34 modelTexIds
  { sh1 with
    flags := flags0
    attrFlags := attrFlags3
    hasHemisphericProbe := u32At d 0x08 ≠ 0
    hasReflectiveProbe := u32At d 0x14 ≠ 0
    reflectiveProbeMaskTexId := parseModelTexId d 0x18 modelTexIds
    reflectiveProbeIdx := byteAt d 0x20
    reflectiveAmbFactorByte := byteAt d 0x22
    nbtTexId := nbt
    hasNBTTexture := nbt ≠ .null
    nbtParams := byteAt d 0x42
    furRegionsTexId := parseModelTexId d 0x38 modelTexIds
    colorR := byteAt d 0x04
    colorG := byteAt d 0x05
    colorB := byteAt d 0x06 }

/-- The final-family `else` branch of `parseShader`: `flags` is the raw
32-bit word at `0x3c`. -/
def parseShaderFinal (d : Bytes) (modelTexIds : List Nat) (sh0 : Shader) : Shader :=
  let nbt := parseModelTexId d 0x34 modelTexIds
  { sh0 with
    flags := u32At d 0x3c
    attrFlags := byteAt d 0x40
    hasHemisphericProbe := u32At d 0x8 ≠ 0
    hasReflectiveProbe := u32At d 0x14 ≠ 0
    reflectiveProbeMaskTexId := parseModelTexId d 0x18 modelTexIds
    reflectiveProbeIdx := byteAt d 0x20
    reflectiveAmbFactorByte := byteAt d 0x22
    nbtTexId := nbt
    hasNBTTexture := nbt ≠ .null
    nbtParams := byteAt d 0x42
    furRegionsTexId := parseModelTexId d 0x38 modelTexIds
    colorR := byteAt d 0x4
    colorG := byteAt d 0x5
    colorB := byteAt d 0x6 }

/-- `parseShader` from materialloader.ts: build the base record, parse up
to two (clamped) layers, then dispatch on the format family. -/
def parseShader (d : Bytes) (fields : ShaderFields) (modelTexIds : List Nat)
    (normalFlags lightFlags texMtxCount : Nat) : Shader :=
  let numLayersRaw := byteAt d fields.numLayers
  let numLayers := if numLayersRaw > 2 then 2 else numLayersRaw
  let layers := (List.range numLayers).map
    (fun i => parseShaderLayer d (fields.layers + i * 8) modelTexIds)
  let sh0 : Shader :=
    { layers := layers, normalFlags := normalFlags, lightFlags := lightFlags,
      texMtxCount := texMtxCount }
  if fields.isAncient then parseShaderAncient d sh0
  else if fields.isSwapcircle then parseShaderSwapcircle d sh0
  else if fields.isBeta then
    let sh1 := { sh0 with
      isBeta := true, attrFlags := ShaderAttrFlags.CLR, flags := ShaderFlags.CullBackface }
    if fields.isold then parseShaderOld d sh1
    else if fields.isEarly1 then parseShaderEarly1 d sh1
    else if fields.isEarly3 then parseShaderEarly3 d modelTexIds sh1
    else sh1
  else parseShaderFinal d modelTexIds sh0

/-! ## Claim C1: Water/Lava flag exclusivity -/

/-- Water and Lava are not simultaneously set in a flag word. -/
def flagsExclusive (f : Nat) : Prop :=
  f &&& ShaderFlags.Water = 0 ∨ f &&& ShaderFlags.Lava = 0

set_option maxHeartbeats 1000000 in
theorem parseShaderAncient_exclusive (d : Bytes) (sh0 : Shader) :
    flagsExclusive (parseShaderAncient d sh0).flags := by
  unfold parseShaderAncient flagsExclusive
  dsimp only
  split_ifs <;> decide

set_option maxHeartbeats 1000000 in
theorem parseShaderSwapcircle_exclusive (d : Bytes) (sh0 : Shader) :
    flagsExclusive (parseShaderSwapcircle d sh0).flags := by
  unfold parseShaderSwapcircle flagsExclusive
  dsimp only
  split_ifs <;> decide

set_option maxHeartbeats 1000000 in
theorem parseShaderOld_exclusive (d : Bytes) (sh1 : Shader) :
    flagsExclusive (parseShaderOld d sh1).flags := by
  unfold parseShaderOld flagsExclusive
  dsimp only
  split_ifs <;> decide

set_option maxHeartbeats 1000000 in
theorem parseShaderEarly1_exclusive (d : Bytes) (sh1 : Shader) :
    flagsExclusive (parseShaderEarly1 d sh1).flags := by
  unfold parseShaderEarly1 translateEarly1Flags flagsExclusive
  dsimp only
  split_ifs <;> decide

/-- Or-ing two words that both avoid a mask avoids the mask. -/
theorem or_and_mask_zero {x y m : Nat} (hx : x &&& m = 0) (hy : y &&& m = 0) :
    (x ||| y) &&& m = 0 := by
  refine Nat.eq_of_testBit_eq fun i => ?_
  have hxi := congrArg (fun t => Nat.testBit t i) hx
  have hyi := congrArg (fun t => Nat.testBit t i) hy
  simp only [Nat.testBit_land, Nat.zero_testBit, Bool.and_eq_false_iff] at hxi hyi
  simp only [Nat.testBit_land, Nat.testBit_lor, Nat.zero_testBit]
  rcases hxi with hxi | hmi
  · rcases hyi with hyi | hmi
    · simp [hxi, hyi]
    · simp [hmi]
  · simp [hmi]

/-- The value `|=`-accumulated by a conditional flag step avoids a mask
whenever the accumulator and the flag do. -/
theorem flagStep_and_mask_zero {a c m : Nat} {p : Prop} [Decidable p] (ha : a &&& m = 0)
    (hc : c &&& m = 0) : (if p then a ||| c else a) &&& m = 0 := by
  split_ifs
  · exact or_and_mask_zero ha hc
  · exact ha

theorem translateEarly3Flags_no_water_lava (raw : Nat) :
    translateEarly3Flags raw &&& 0x80000080 = 0 := by
  unfold translateEarly3Flags
  dsimp only
  repeat' apply flagStep_and_mask_zero
  all_goals decide

theorem parseShaderEarly3_exclusive (d : Bytes) (tex : List Nat) (sh1 : Shader) :
    flagsExclusive (parseShaderEarly3 d tex sh1).flags := by
  unfold parseShaderEarly3 flagsExclusive
  dsimp only
  right
  rw [show ShaderFlags.Lava = 0x80000080 &&& 0x80 from by decide, ← Nat.and_assoc,
    translateEarly3Flags_no_water_lava]
  decide

/-- C1 (amended): for every shader record parsed by `parseShader` under a
heuristic format family (ancient, swapcircle, or any of the beta
families), the Water and Lava flags are never simultaneously set.  In the
final family (none of those flags) `parseShader` copies the raw 32-bit
flag word from the file, so both bits can be set there. -/
theorem c1_water_lava_exclusive_heuristic_families
    (d : Bytes) (fields : ShaderFields) (tex : List Nat) (nf lf tmc : Nat)
    (h : fields.isAncient = true ∨ fields.isSwapcircle = true ∨ fields.isBeta = true) :
    flagsExclusive (parseShader d fields tex nf lf tmc).flags := by
  unfold parseShader
  split_ifs with h1 h2 h3 h4 h5 h6
  · exact parseShaderAncient_exclusive _ _
  · exact parseShaderSwapcircle_exclusive _ _
  · exact parseShaderOld_exclusive _ _
  · exact parseShaderEarly1_exclusive _ _
  · exact parseShaderEarly3_exclusive _ _ _
  · unfold flagsExclusive
    right
    show ShaderFlags.CullBackface &&& ShaderFlags.Lava = 0
    decide
  · exact absurd h (by simp [h1, h2, h3])

/-- Witness for C1: the heuristic-family theorem evaluated on a
zero-filled ancient-map shader record. -/
theorem c1_water_lava_exclusive_witness :
    flagsExclusive
      (parseShader (List.replicate 0x3c 0) ANCIENT_MAP_SHADER_FIELDS [] 0 0 0).flags :=
  c1_water_lava_exclusive_heuristic_families
    (List.replicate 0x3c 0) ANCIENT_MAP_SHADER_FIELDS [] 0 0 0 (Or.inl rfl)

/-- A final-family (SFA) shader record whose raw flag word at `0x3c` is
`0x80000080`, i.e. Water and Lava both set; everything else zero. -/
def finalFamilyBothRec : Bytes :=
  List.replicate 0x3c 0 ++ [0x80, 0, 0, 0x80, 0, 0, 0, 0]

/-- Counterexample to C1 as stated ("any format family, any input
bytes"): in the final family the raw flag word is copied verbatim, so a
record with both bits set yields a `ShaderDescriptor` with Water and
Lava simultaneously set. -/
theorem c1_final_family_both_flags_counterexample :
    ¬ flagsExclusive
      (parseShader finalFamilyBothRec SFA_SHADER_FIELDS [] 0 0 0).flags := by
  unfold flagsExclusive
  decide

/-! ## Claim C2: display-list table resolution (modelloader.ts `loadModel`)

`DisplayListInfo` and the two resolution paths of the `dlInfos` block
(lines 1095-1150): the `isBeta` path copies raw `(offset, size)` pairs
from two tables; the table path parses rows of a fixed stride with
validity filtering and an early stop after a run of 8 invalid rows. -/

/-- `DisplayListInfo`.  `aabbRaw` holds the six raw `getInt16` values the
source divides by 8 into a float bounding box; beta-path entries carry
neither a bounding box nor the optional fields. -/
structure DLInfo where
  offset : Nat
  size : Nat
  aabbRaw : List Int := []
  specialBitAddress : Option Nat := none
  sortLayer : Option Nat := none
deriving DecidableEq, Repr

/-- `dataSubarray(data, off, len)`: the byte window. -/
def sliceBytes (d : Bytes) (off len : Nat) : Bytes := (d.drop off).take len

/-- `parseDisplayListInfo` on a row window (total flavour; the row is
produced by `dataSubarray` with the table stride as its length). -/
def parseDisplayListInfo (row : Bytes) : DLInfo :=
  { offset := u32At row 0x0
    size := u16At row 0x4
    aabbRaw := [i16At row 0x6, i16At row 0x8, i16At row 0xa,
                i16At row 0xc, i16At row 0xe, i16At row 0x10]
    specialBitAddress := some (u16At row 0x14)
    sortLayer := some (byteAt row 0x18) }

/-- Fallible `parseDisplayListInfo`: its `DataView` reads touch bytes up
to offset `0x18`, so they throw exactly when the row window is shorter
than `0x19` bytes. -/
def parseDisplayListInfoChecked (row : Bytes) : Option DLInfo :=
  if 0x19 ≤ row.length then some (parseDisplayListInfo row) else none

/-- The entry filter of the table path: `offset > 0`, `size > 0` and
`offset + size ≤ fileLen`, or the untouched zero/zero sentinel. -/
def validOrSentinel (e : DLInfo) (fileLen : Nat) : Prop :=
  (e.offset = 0 ∧ e.size = 0) ∨
  (0 < e.offset ∧ 0 < e.size ∧ e.offset + e.size ≤ fileLen)

/-- The scan loop of the non-beta `dlInfos` resolution: `rem` is the list
of remaining row indices, `ci` the `consecutiveInvalid` counter, `acc`
the pre-sized sentinel-filled array.  A row whose window would overrun
the file bumps the counter and `continue`s (skipping the run-stop test,
as in the source); a parsed row either lands in the array (resetting the
counter) or leaves the sentinel; a run of 8 invalid rows stops early. -/
def resolveDlLoop (data : Bytes) (dlInfoOffset stride fileLen : Nat) :
    List Nat → Nat → List DLInfo → Option (List DLInfo)
  | [], _, acc => some acc
  | i :: rest, ci, acc =>
    if dlInfoOffset + i * stride + stride > fileLen then
      resolveDlLoop data dlInfoOffset stride fileLen rest (ci + 1) acc
    else
      match parseDisplayListInfoChecked (sliceBytes data (dlInfoOffset + i * stride) stride) with
      | none => none
      | some info =>
        if 0 < info.offset ∧ 0 < info.size ∧ info.offset + info.size ≤ fileLen then
          resolveDlLoop data dlInfoOffset stride fileLen rest 0 (acc.set i info)
        else
          if ci + 1 ≥ 8 then some acc
          else resolveDlLoop data dlInfoOffset stride fileLen rest (ci + 1) acc

/-- The non-beta `dlInfos` resolution of `loadModel` (modelloader.ts
lines 1108-1149): missing/out-of-range table offset leaves the list
empty; otherwise the array is pre-sized with zero/zero sentinels and
filled by the guarded scan. -/
def resolveDlInfosTable (data : Bytes) (dlInfoOffset dlInfoCount stride : Nat) :
    Option (List DLInfo) :=
  if dlInfoOffset = 0 ∨ dlInfoOffset ≥ data.length then some []
  else
    let fileLen := data.length
    let bytesAvail := fileLen - dlInfoOffset
    let maxBySize := bytesAvail / stride
    let effSlots := min dlInfoCount maxBySize
    let init := List.replicate dlInfoCount ({ offset := 0, size := 0 } : DLInfo)
    resolveDlLoop data dlInfoOffset stride fileLen (List.range effSlots) 0 init

/-- Modelled from the spec: `readUint32(data, offs, i)` of util.ts
(absent from the sources) — the spec's "byte buffer (random-access,
offset-addressable)" table reads, i.e. the big-endian 32-bit word at
`offs + 4*i`. -/
def readUint32? (d : Bytes) (offs i : Nat) : Option Nat := getU32? d (offs + 4 * i)

/-- Modelled from the spec: `readUint16(data, offs, i)` of util.ts
(absent from the sources): the big-endian 16-bit word at `offs + 2*i`. -/
def readUint16? (d : Bytes) (offs i : Nat) : Option Nat := getU16? d (offs + 2 * i)

/-- The `isBeta` `dlInfos` resolution of `loadModel` (modelloader.ts
lines 1099-1107): per entry, re-read the two table base offsets and copy
the raw `(offset, size)` pair with no validity check. -/
def resolveDlInfosBeta (data : Bytes) (dlOffsetsField dlSizesField count : Nat) :
    Option (List DLInfo) :=
  (List.range count).mapM (fun i => do
    let dlOffsetsOffs ← getU32? data dlOffsetsField
    let dlSizesOffs ← getU32? data dlSizesField
    let o ← readUint32? data dlOffsetsOffs i
    let s ← readUint16? data dlSizesOffs i
    pure ({ offset := o, size := s } : DLInfo))

theorem length_sliceBytes_of_le {d : Bytes} {off len : Nat} (h : off + len ≤ d.length) :
    (sliceBytes d off len).length = len := by
  simp only [sliceBytes, List.length_take, List.length_drop]
  omega

theorem resolveDlLoop_valid (data : Bytes) (dlInfoOffset stride : Nat)
    (hs : 0x19 ≤ stride) :
    ∀ (rem : List Nat) (ci : Nat) (acc : List DLInfo),
      (∀ e ∈ acc, validOrSentinel e data.length) →
      ∃ l, resolveDlLoop data dlInfoOffset stride data.length rem ci acc = some l ∧
        ∀ e ∈ l, validOrSentinel e data.length := by
  intro rem
  induction rem with
  | nil => intro ci acc hacc; exact ⟨acc, rfl, hacc⟩
  | cons i rest ih =>
    intro ci acc hacc
    rw [resolveDlLoop]
    split
    · exact ih (ci + 1) acc hacc
    · have hrow : dlInfoOffset + i * stride + stride ≤ data.length := by omega
      have hlen : (sliceBytes data (dlInfoOffset + i * stride) stride).length = stride :=
        length_sliceBytes_of_le hrow
      rw [parseDisplayListInfoChecked, if_pos (by omega)]
      dsimp only
      split
      · next hvalid =>
        refine ih 0 _ (fun e he => ?_)
        rcases List.mem_or_eq_of_mem_set he with he | rfl
        · exact hacc e he
        · exact Or.inr hvalid
      · split
        · exact ⟨acc, rfl, hacc⟩
        · exact ih (ci + 1) acc hacc

/-- C2 (amended, table path): for the table-based (non-beta) resolution,
with any of the per-version strides (all at least `0x19` bytes), every
resolved entry is either valid (`offset > 0`, `size > 0`,
`offset + size ≤ fileLen`) or the zero/zero sentinel, and resolution
never raises (always returns a value). -/
theorem c2_table_resolution_valid_or_sentinel
    (data : Bytes) (dlInfoOffset dlInfoCount stride : Nat) (hs : 0x19 ≤ stride) :
    ∃ l, resolveDlInfosTable data dlInfoOffset dlInfoCount stride = some l ∧
      ∀ e ∈ l, validOrSentinel e data.length := by
  unfold resolveDlInfosTable
  split
  · exact ⟨[], rfl, by simp⟩
  · refine resolveDlLoop_valid data dlInfoOffset stride hs _ 0 _ (fun e he => ?_)
    have := List.eq_of_mem_replicate he
    subst this
    exact Or.inl ⟨rfl, rfl⟩

/-- Witness for C2: the table resolution evaluated on a 64-byte buffer
with a 2-row table of stride `0x1c` at offset 4. -/
theorem c2_table_resolution_witness :
    ∃ l, resolveDlInfosTable (List.replicate 0x40 0) 4 2 0x1c = some l ∧
      ∀ e ∈ l, validOrSentinel e (List.replicate (0x40 : Nat) 0).length :=
  c2_table_resolution_valid_or_sentinel (List.replicate 0x40 0) 4 2 0x1c (by decide)

/-- A 14-byte buffer for the beta path: the offsets table pointer (at
field offset 0) points to 8, the sizes table pointer (at 4) to 12; entry
0 then reads `offset = 200`, `size = 255`. -/
def c2BetaData : Bytes := [0, 0, 0, 8, 0, 0, 0, 12, 0, 0, 0, 200, 0, 255]

/-- Counterexample to C2 as stated ("for every format version ... no
entry with offset + size > bufferLength is ever produced"): the beta
path copies the raw pair `(200, 255)` although `200 + 255` exceeds the
14-byte buffer, and the entry is not the zero/zero sentinel. -/
theorem c2_beta_unchecked_entry_counterexample :
    resolveDlInfosBeta c2BetaData 0 4 1 = some [{ offset := 200, size := 255 }] ∧
    ¬ validOrSentinel { offset := 200, size := 255 } c2BetaData.length := by
  constructor
  · rfl
  · unfold validOrSentinel
    decide

/-! ## Claim C7: normal-buffer padding (modelloader.ts lines 818-835)

When normals are present, the buffer is non-empty and shorter than
`posCount * nrmStride`, the loader allocates a `needed`-byte array,
copies the old bytes, and fills the tail by repeating the final
`nrmStride`-byte record. -/

/-- The inner `for j < stride` copy of one repeated record: a write past
`needed` is silently dropped, as a typed-array store past the end is. -/
def padCopyRecord (src : Bytes) (tailStart stride off : Nat) (dst : Bytes) : Bytes :=
  (List.range stride).foldl (fun d j => d.set (off + j) (src.getD (tailStart + j) 0)) dst

/-- The outer `for off from srcLen step stride while off < needed` loop.
The source's loop never runs with `stride = 0` (the stride is 3 or 9);
the conjunct makes the translation total. -/
def padFillLoop (src : Bytes) (tailStart stride needed : Nat) (off : Nat) (dst : Bytes) :
    Bytes :=
  if h : off < needed ∧ 0 < stride then
    padFillLoop src tailStart stride needed (off + stride) (padCopyRecord src tailStart stride off dst)
  else dst
termination_by needed - off
decreasing_by omega

/-- The normal-padding guard of `loadModel`: grow a non-empty,
too-short normal buffer to exactly `posCount * nrmStride` bytes by
repeating the final record; otherwise return it unchanged. -/
def padNormals (nrm : Bytes) (posCount nrmStride : Nat) : Bytes :=
  let needed := posCount * nrmStride
  if 0 < nrm.length ∧ nrm.length < needed then
    let dst0 := nrm ++ List.replicate (needed - nrm.length) 0
    let tailStart := nrm.length - nrmStride
    padFillLoop nrm tailStart nrmStride needed nrm.length dst0
  else nrm

theorem padCopyRecord_length (src : Bytes) (tailStart stride off : Nat) (dst : Bytes) :
    (padCopyRecord src tailStart stride off dst).length = dst.length := by
  unfold padCopyRecord
  generalize List.range stride = l
  induction l generalizing dst with
  | nil => rfl
  | cons j rest ih =>
    simp only [List.foldl_cons]
    rw [ih, List.length_set]

theorem padFillLoop_length (src : Bytes) (tailStart stride needed : Nat) (off : Nat)
    (dst : Bytes) :
    (padFillLoop src tailStart stride needed off dst).length = dst.length := by
  rw [padFillLoop]
  split
  · rw [padFillLoop_length, padCopyRecord_length]
  · rfl
termination_by needed - off
decreasing_by omega

/-- C7 (amended): if the normal buffer is non-empty and shorter than
`posCount * normalStride` (stride 9 for NBT normals, 3 otherwise), the
padded buffer's length is exactly `posCount * normalStride`; a buffer
already at least that long is returned unchanged.  An empty normal
buffer is also returned unchanged, even when `posCount > 0`. -/
theorem c7_normal_padding_grows_to_needed (nrm : Bytes) (posCount nrmStride : Nat) :
    (0 < nrm.length → nrm.length < posCount * nrmStride →
      (padNormals nrm posCount nrmStride).length = posCount * nrmStride) ∧
    (posCount * nrmStride ≤ nrm.length → padNormals nrm posCount nrmStride = nrm) ∧
    (nrm.length = 0 → padNormals nrm posCount nrmStride = nrm) := by
  refine ⟨fun h1 h2 => ?_, fun hge => ?_, fun h0 => ?_⟩
  · rw [padNormals]
    simp only [h1, h2, and_self, if_pos]
    rw [padFillLoop_length]
    simp only [List.length_append, List.length_replicate]
    omega
  · rw [padNormals, if_neg (by omega)]
  · rw [padNormals, if_neg (by omega)]

/-- Witness for C7: a 3-byte normal buffer against `posCount = 2`,
stride 3 grows to 6 bytes; a 6-byte buffer is unchanged; the empty
buffer is unchanged. -/
theorem c7_normal_padding_witness :
    (padNormals [1, 2, 3] 2 3).length = 2 * 3 ∧
    padNormals [1, 2, 3, 4, 5, 6] 2 3 = [1, 2, 3, 4, 5, 6] ∧
    padNormals [] 2 3 = [] :=
  ⟨(c7_normal_padding_grows_to_needed [1, 2, 3] 2 3).1 (by decide) (by decide),
   (c7_normal_padding_grows_to_needed [1, 2, 3, 4, 5, 6] 2 3).2.1 (by decide),
   (c7_normal_padding_grows_to_needed [] 2 3).2.2 rfl⟩

/-- Counterexample to C7 as stated ("for every model ... whose normal
buffer byte length is less than positionCount × normalStride, the loader
grows the buffer ... the resulting buffer length equals exactly
positionCount × normalStride"): an empty normal buffer (byte length 0,
less than `1 * 3`) is left empty because the guard requires a non-empty
buffer. -/
theorem c7_empty_buffer_not_grown_counterexample :
    (List.length ([] : Bytes) < 1 * 3) ∧ (padNormals [] 1 3).length ≠ 1 * 3 := by
  constructor
  · decide
  · rw [padNormals, if_neg (by decide)]
    decide

/-! ## Vertex descriptors (`GX_VtxDesc[]`)

Modelled from the spec: `GX.AttrType` of gx_enum.ts (absent from the
sources) — a vertex attribute is absent, a direct value, an 8-bit index
or a 16-bit index.  The descriptor array is represented with one field
per attribute group: the position-matrix slot, the eight texture-matrix
slots, POS/NRM/CLR0 and the eight texture coordinates. -/

inductive AttrType where
  | NONE : AttrType
  | DIRECT : AttrType
  | INDEX8 : AttrType
  | INDEX16 : AttrType
deriving DecidableEq, Repr

def countDirect : List AttrType → Nat
  | [] => 0
  | a :: rest => (if a = .DIRECT then 1 else 0) + countDirect rest

def countNonDirect : List AttrType → Nat
  | [] => 0
  | a :: rest => (if a = .DIRECT then 0 else 1) + countNonDirect rest

def enableTexDirect : List AttrType → Nat → List AttrType × Nat
  | [], need => ([], need)
  | a :: rest, need =>
    if 0 < need ∧ a ≠ .DIRECT then
      (.DIRECT :: (enableTexDirect rest (need - 1)).1, (enableTexDirect rest (need - 1)).2)
    else
      (a :: (enableTexDirect rest need).1, (enableTexDirect rest need).2)

def dropTexDirect : List AttrType → Nat → List AttrType × Nat
  | [], over => ([], over)
  | a :: rest, over =>
    if 0 < over ∧ a = .DIRECT then
      (.NONE :: (dropTexDirect rest (over - 1)).1, (dropTexDirect rest (over - 1)).2)
    else
      (a :: (dropTexDirect rest over).1, (dropTexDirect rest over).2)

theorem enableTexDirect_spec (l : List AttrType) (need : Nat) :
    countDirect (enableTexDirect l need).1 = countDirect l + min need (countNonDirect l) ∧
    (enableTexDirect l need).2 = need - min need (countNonDirect l) := by
  induction l generalizing need with
  | nil => simp [enableTexDirect, countDirect, countNonDirect]
  | cons a rest ih =>
    rw [enableTexDirect]
    by_cases hc : 0 < need ∧ a ≠ AttrType.DIRECT
    · rw [if_pos hc]
      have h1 := (ih (need - 1)).1
      have h2 := (ih (need - 1)).2
      constructor
      · simp [countDirect, countNonDirect, hc.2, h1]
        omega
      · simp [countDirect, countNonDirect, hc.2, h2]
        omega
    · rw [if_neg hc]
      have h1 := (ih need).1
      have h2 := (ih need).2
      by_cases hd : a = AttrType.DIRECT
      · constructor
        · simp [countDirect, countNonDirect, hd, h1]
          omega
        · simp [countDirect, countNonDirect, hd, h2]
      · have hn : need = 0 := by
          rcases not_and_or.mp hc with h | h
          · omega
          · exact absurd hd (by simpa using h)
        subst hn
        constructor
        · simp [countDirect, countNonDirect, hd, h1]
        · simp [countDirect, countNonDirect, hd, h2]

theorem dropTexDirect_spec (l : List AttrType) (over : Nat) :
    countDirect (dropTexDirect l over).1 = countDirect l - min over (countDirect l) ∧
    (dropTexDirect l over).2 = over - min over (countDirect l) ∧
    (0 < (dropTexDirect l over).2 → countDirect (dropTexDirect l over).1 = 0) := by
  induction l generalizing over with
  | nil => simp [dropTexDirect, countDirect]
  | cons a rest ih =>
    rw [dropTexDirect]
    by_cases hc : 0 < over ∧ a = AttrType.DIRECT
    · rw [if_pos hc]
      have h1 := (ih (over - 1)).1
      have h2 := (ih (over - 1)).2.1
      have h3 := (ih (over - 1)).2.2
      refine ⟨?_, ?_, ?_⟩
      · simp [countDirect, hc.2, h1]
        omega
      · simp [countDirect, hc.2, h2]
        omega
      · intro hpos
        simp only [h2] at hpos
        have := h3 (by omega)
        simp [countDirect, this]
    · rw [if_neg hc]
      have h1 := (ih over).1
      have h2 := (ih over).2.1
      have h3 := (ih over).2.2
      by_cases hd : a = AttrType.DIRECT
      · have hn : over = 0 := by
          rcases not_and_or.mp hc with h | h
          · omega
          · exact absurd hd h
        subst hn
        refine ⟨?_, ?_, ?_⟩
        · simp [countDirect, hd, h1]
        · simp [countDirect, hd, h2]
        · intro hpos
          simp only [h2] at hpos
          omega
      · refine ⟨?_, ?_, ?_⟩
        · simp [countDirect, hd, h1]
        · simp [countDirect, hd, h2]
        · intro hpos
          simp only [h2] at hpos
          have := h3 (by omega)
          simp [countDirect, hd, this]



structure Vcd where
  pnmtxidx : AttrType := .NONE
  texmtxidx : List AttrType := List.replicate 8 .NONE
  pos : AttrType := .NONE
  nrm : AttrType := .NONE
  clr0 : AttrType := .NONE
  tex : List AttrType := List.replicate 8 .NONE
deriving DecidableEq, Repr

def attrIdxBytes : AttrType → Nat
  | .INDEX16 => 2
  | .INDEX8 => 1
  | _ => 0

def vcdIndexBytes (v : Vcd) : Nat :=
  attrIdxBytes v.pos + attrIdxBytes v.nrm + attrIdxBytes v.clr0 +
  attrIdxBytes (v.tex.getD 0 .NONE) + attrIdxBytes (v.tex.getD 1 .NONE) +
  attrIdxBytes (v.tex.getD 2 .NONE) + attrIdxBytes (v.tex.getD 3 .NONE)

def vcdDirectBytes (v : Vcd) : Nat :=
  (if v.pnmtxidx = .DIRECT then 1 else 0) + countDirect v.texmtxidx

def vcdStride (v : Vcd) : Nat := vcdIndexBytes v + vcdDirectBytes v

def forceVCDStrideTo (vcdIn : Vcd) (targetStride : Nat) : Vcd :=
  let v := vcdIn
  let cur := vcdIndexBytes v + vcdDirectBytes v
  if cur = targetStride then v
  else if cur < targetStride then
    let need := targetStride - cur
    let (v1, need1) :=
      if 0 < need ∧ v.pnmtxidx ≠ .DIRECT then
        ({ v with pnmtxidx := .DIRECT }, need - 1)
      else (v, need)
    let (tex1, _) := enableTexDirect v1.texmtxidx need1
    { v1 with texmtxidx := tex1 }
  else
    let over := cur - targetStride
    let (texRev, over1) := dropTexDirect v.texmtxidx.reverse over
    let v1 := { v with texmtxidx := texRev.reverse }
    if 0 < over1 ∧ v1.pnmtxidx = .DIRECT then { v1 with pnmtxidx := .NONE } else v1

def vcdAddable (v : Vcd) : Nat :=
  (if v.pnmtxidx = .DIRECT then 0 else 1) + countNonDirect v.texmtxidx

def vcdDroppable (v : Vcd) : Nat :=
  (if v.pnmtxidx = .DIRECT then 1 else 0) + countDirect v.texmtxidx

theorem countDirect_append (l1 l2 : List AttrType) :
    countDirect (l1 ++ l2) = countDirect l1 + countDirect l2 := by
  induction l1 with
  | nil => simp [countDirect]
  | cons a rest ih => simp [countDirect, ih]; omega

theorem countDirect_reverse (l : List AttrType) :
    countDirect l.reverse = countDirect l := by
  induction l with
  | nil => rfl
  | cons a rest ih =>
    simp [List.reverse_cons, countDirect_append, countDirect, ih]
    omega

theorem force_eq_of_eq (v : Vcd) (t : Nat) (h : vcdStride v = t) :
    forceVCDStrideTo v t = v := by
  unfold forceVCDStrideTo
  unfold vcdDirectBytes
  unfold vcdStride vcdDirectBytes at h
  dsimp only
  rw [if_pos (by omega)]

theorem force_eq_widen_pnoff (v : Vcd) (t : Nat) (h : vcdStride v < t)
    (hp : v.pnmtxidx ≠ .DIRECT) :
    forceVCDStrideTo v t =
      { v with pnmtxidx := .DIRECT,
               texmtxidx := (enableTexDirect v.texmtxidx (t - vcdStride v - 1)).1 } := by
  unfold forceVCDStrideTo
  unfold vcdStride vcdDirectBytes at h ⊢
  dsimp only
  rw [if_neg (by omega), if_pos (by omega), if_pos ⟨by omega, hp⟩]

theorem force_eq_widen_pnon (v : Vcd) (t : Nat) (h : vcdStride v < t)
    (hp : v.pnmtxidx = .DIRECT) :
    forceVCDStrideTo v t =
      { v with texmtxidx := (enableTexDirect v.texmtxidx (t - vcdStride v)).1 } := by
  unfold forceVCDStrideTo
  unfold vcdStride vcdDirectBytes at h ⊢
  dsimp only
  rw [if_neg (by omega), if_pos (by omega), if_neg (by simp [hp])]

theorem force_eq_narrow (v : Vcd) (t : Nat) (h : t < vcdStride v) :
    forceVCDStrideTo v t =
      (if 0 < (dropTexDirect v.texmtxidx.reverse (vcdStride v - t)).2 ∧
          v.pnmtxidx = .DIRECT then
        { v with pnmtxidx := .NONE,
                 texmtxidx := (dropTexDirect v.texmtxidx.reverse (vcdStride v - t)).1.reverse }
      else
        { v with texmtxidx := (dropTexDirect v.texmtxidx.reverse (vcdStride v - t)).1.reverse }) := by
  unfold forceVCDStrideTo
  unfold vcdStride vcdDirectBytes at h ⊢
  dsimp only
  rw [if_neg (by omega), if_neg (by omega)]

theorem vcdStride_update_tex (v : Vcd) (l : List AttrType) :
    vcdStride { v with texmtxidx := l } =
      vcdIndexBytes v + ((if v.pnmtxidx = AttrType.DIRECT then 1 else 0) + countDirect l) := rfl

theorem vcdStride_update_pn_tex (v : Vcd) (l : List AttrType) :
    vcdStride { v with pnmtxidx := .DIRECT, texmtxidx := l } =
      vcdIndexBytes v + (1 + countDirect l) := rfl

theorem vcdStride_update_pnoff_tex (v : Vcd) (l : List AttrType) :
    vcdStride { v with pnmtxidx := .NONE, texmtxidx := l } =
      vcdIndexBytes v + (0 + countDirect l) := rfl

theorem forceVCDStrideTo_frame (v : Vcd) (t : Nat) :
    (forceVCDStrideTo v t).pos = v.pos ∧ (forceVCDStrideTo v t).nrm = v.nrm ∧
    (forceVCDStrideTo v t).clr0 = v.clr0 ∧ (forceVCDStrideTo v t).tex = v.tex := by
  rcases Nat.lt_trichotomy (vcdStride v) t with h | h | h
  · by_cases hp : v.pnmtxidx = AttrType.DIRECT
    · rw [force_eq_widen_pnon v t h hp]
      exact ⟨rfl, rfl, rfl, rfl⟩
    · rw [force_eq_widen_pnoff v t h hp]
      exact ⟨rfl, rfl, rfl, rfl⟩
  · rw [force_eq_of_eq v t h]
    exact ⟨rfl, rfl, rfl, rfl⟩
  · rw [force_eq_narrow v t h]
    split_ifs <;> exact ⟨rfl, rfl, rfl, rfl⟩

theorem forceVCDStrideTo_widening_pn (v : Vcd) (t : Nat) (h : vcdStride v < t) :
    (forceVCDStrideTo v t).pnmtxidx = .DIRECT := by
  by_cases hp : v.pnmtxidx = AttrType.DIRECT
  · rw [force_eq_widen_pnon v t h hp]
    exact hp
  · rw [force_eq_widen_pnoff v t h hp]

theorem forceVCDStrideTo_narrowing_tex_first (v : Vcd) (t : Nat) (h : t < vcdStride v)
    (hpn : (forceVCDStrideTo v t).pnmtxidx ≠ v.pnmtxidx) :
    countDirect (forceVCDStrideTo v t).texmtxidx = 0 := by
  rw [force_eq_narrow v t h] at hpn ⊢
  split_ifs at hpn ⊢ with hcase
  · dsimp only
    rw [countDirect_reverse]
    exact (dropTexDirect_spec _ _).2.2 hcase.1
  · exact absurd rfl hpn

theorem forceVCDStrideTo_widening_exact (v : Vcd) (t : Nat) (h : vcdStride v < t)
    (hr : t ≤ vcdStride v + vcdAddable v) :
    vcdStride (forceVCDStrideTo v t) = t := by
  have hv : vcdStride v = vcdIndexBytes v +
      ((if v.pnmtxidx = AttrType.DIRECT then 1 else 0) + countDirect v.texmtxidx) := rfl
  have ha : vcdAddable v =
      (if v.pnmtxidx = AttrType.DIRECT then 0 else 1) + countNonDirect v.texmtxidx := rfl
  by_cases hp : v.pnmtxidx = AttrType.DIRECT
  · have hb1 : (if v.pnmtxidx = AttrType.DIRECT then 1 else 0) = 1 := if_pos hp
    have hb0 : (if v.pnmtxidx = AttrType.DIRECT then 0 else 1) = 0 := if_pos hp
    rw [force_eq_widen_pnon v t h hp, vcdStride_update_tex,
      (enableTexDirect_spec _ _).1]
    omega
  · have hb1 : (if v.pnmtxidx = AttrType.DIRECT then 1 else 0) = 0 := if_neg hp
    have hb0 : (if v.pnmtxidx = AttrType.DIRECT then 0 else 1) = 1 := if_neg hp
    rw [force_eq_widen_pnoff v t h hp, vcdStride_update_pn_tex,
      (enableTexDirect_spec _ _).1]
    omega

theorem forceVCDStrideTo_narrowing_exact (v : Vcd) (t : Nat) (h : t < vcdStride v)
    (hr : vcdStride v - vcdDroppable v ≤ t) :
    vcdStride (forceVCDStrideTo v t) = t := by
  have hv : vcdStride v = vcdIndexBytes v +
      ((if v.pnmtxidx = AttrType.DIRECT then 1 else 0) + countDirect v.texmtxidx) := rfl
  have hd : vcdDroppable v =
      (if v.pnmtxidx = AttrType.DIRECT then 1 else 0) + countDirect v.texmtxidx := rfl
  have h1 := (dropTexDirect_spec v.texmtxidx.reverse (vcdStride v - t)).1
  have h2 := (dropTexDirect_spec v.texmtxidx.reverse (vcdStride v - t)).2.1
  rw [countDirect_reverse] at h1 h2
  rw [force_eq_narrow v t h]
  split_ifs with hcase
  · have hb1 : (if v.pnmtxidx = AttrType.DIRECT then 1 else 0) = 1 := if_pos hcase.2
    rw [vcdStride_update_pnoff_tex, countDirect_reverse, h1]
    have hpos := hcase.1
    omega
  · rw [vcdStride_update_tex, countDirect_reverse, h1]
    rcases not_and_or.mp hcase with hc | hc
    · have hz : (dropTexDirect v.texmtxidx.reverse (vcdStride v - t)).2 = 0 := by omega
      omega
    · have hb1 : (if v.pnmtxidx = AttrType.DIRECT then 1 else 0) = 0 := if_neg hc
      omega


/-- C6 (amended): the stride-forcing rebuild changes only direct
matrix-index slots (POS/NRM/CLR0/TEX slots are untouched); when widening
it toggles the position-matrix-index slot FIRST and then texture-matrix
slots; when narrowing it drops texture-matrix slots before the
position-matrix slot; and whenever the target width is reachable the
result's index-plus-direct byte width equals the target exactly. -/
theorem c6_force_stride_properties (v : Vcd) (t : Nat) :
    ((forceVCDStrideTo v t).pos = v.pos ∧ (forceVCDStrideTo v t).nrm = v.nrm ∧
     (forceVCDStrideTo v t).clr0 = v.clr0 ∧ (forceVCDStrideTo v t).tex = v.tex) ∧
    (vcdStride v < t → (forceVCDStrideTo v t).pnmtxidx = AttrType.DIRECT) ∧
    (t < vcdStride v → (forceVCDStrideTo v t).pnmtxidx ≠ v.pnmtxidx →
      countDirect (forceVCDStrideTo v t).texmtxidx = 0) ∧
    (vcdStride v < t → t ≤ vcdStride v + vcdAddable v →
      vcdStride (forceVCDStrideTo v t) = t) ∧
    (t < vcdStride v → vcdStride v - vcdDroppable v ≤ t →
      vcdStride (forceVCDStrideTo v t) = t) :=
  ⟨forceVCDStrideTo_frame v t, forceVCDStrideTo_widening_pn v t,
   forceVCDStrideTo_narrowing_tex_first v t, forceVCDStrideTo_widening_exact v t,
   forceVCDStrideTo_narrowing_exact v t⟩

/-- A descriptor with an 8-bit position index and no matrix slots. -/
def c6WidenInput : Vcd := { pos := .INDEX8 }

/-- A descriptor with position index, position-matrix slot and one
texture-matrix slot (stride 3). -/
def c6NarrowInput : Vcd :=
  { pos := .INDEX8, pnmtxidx := .DIRECT,
    texmtxidx := [.DIRECT, .NONE, .NONE, .NONE, .NONE, .NONE, .NONE, .NONE] }

/-- Witness for C6: widening stride 1 to 4 and narrowing stride 3 to 1
both land exactly on the target. -/
theorem c6_force_stride_witness :
    vcdStride (forceVCDStrideTo c6WidenInput 4) = 4 ∧
    vcdStride (forceVCDStrideTo c6NarrowInput 1) = 1 :=
  ⟨(c6_force_stride_properties c6WidenInput 4).2.2.2.1 (by decide) (by decide),
   (c6_force_stride_properties c6NarrowInput 1).2.2.2.2 (by decide) (by decide)⟩

/-- Counterexample to C6 as stated (texture slots preferred before the
position slot "in both the widening and narrowing directions"): widening
a descriptor with no matrix slots from stride 1 to 2 toggles the
position-matrix-index slot and leaves all eight texture-matrix slots
untouched, although toggling a texture slot alone would have reached the
target. -/
theorem c6_widening_position_slot_first_counterexample :
    c6WidenInput.pnmtxidx = AttrType.NONE ∧
    countNonDirect c6WidenInput.texmtxidx = 8 ∧
    (forceVCDStrideTo c6WidenInput 2).pnmtxidx = AttrType.DIRECT ∧
    (forceVCDStrideTo c6WidenInput 2).texmtxidx = List.replicate 8 AttrType.NONE := by
  decide

/-! ## Claim C5: stride consistency

The in-source stride scan (`isLikelyGXOpcode`, `guessTargetStride`,
`scanStrideCandidates`, modelloader.ts lines 1375-1450) plus the
geometry builder the interpreter calls for every decode attempt. -/

/-- `isLikelyGXOpcode` from modelloader.ts: BP write (0x61), small
CP/XF-ish bytes, or a GX draw opcode `0x80..0x9f`. -/
def isLikelyGXOpcode (b : Nat) : Bool :=
  b == 0x61 || b == 0x08 || b == 0x10 || b == 0x20 || b == 0x40 ||
  (decide (0x80 ≤ b) && decide (b ≤ 0x9f))

/-- The candidate strides `2..24` tried by the scan. -/
def strideRange : List Nat := List.range' 2 23

/-- The common classification loop of `guessTargetStride` and
`scanStrideCandidates`: for each candidate stride, look at the byte where
the next primitive would start; stop at the end of the display list;
rank into same-primitive / any-draw / auxiliary-command lists. -/
def scanStrideClassify (data : Bytes) (dlOff dlSize prim count : Nat) :
    List Nat → List Nat × List Nat × List Nat
  | [] => ([], [], [])
  | s :: rest =>
    let pos := dlOff + 3 + count * s
    if pos ≥ dlOff + dlSize then ([], [], [])
    else
      let b := byteAt data pos
      let r := scanStrideClassify data dlOff dlSize prim count rest
      if b = prim then (s :: r.1, r.2.1, r.2.2)
      else if 0x80 ≤ b ∧ b ≤ 0x9f then (r.1, s :: r.2.1, r.2.2)
      else if b = 0x61 ∨ b = 0x08 ∨ b = 0x10 ∨ b = 0x20 ∨ b = 0x40 then (r.1, r.2.1, s :: r.2.2)
      else r

/-- `scanStrideCandidates` from modelloader.ts: all plausible strides in
preference order (same primitive, then any draw, then auxiliary). -/
def scanStrideCandidates (data : Bytes) (dlOff dlSize : Nat) : List Nat :=
  if dlSize < 4 then []
  else
    let prim := byteAt data dlOff
    if ¬(0x80 ≤ prim ∧ prim ≤ 0x9f) then []
    else
      let count := u16At data (dlOff + 1)
      if count = 0 ∨ count > 0x4000 then []
      else
        let r := scanStrideClassify data dlOff dlSize prim count strideRange
        r.1 ++ r.2.1 ++ r.2.2

/-- `guessTargetStride` from modelloader.ts: the first stride of the best
non-empty preference class. -/
def guessTargetStride (data : Bytes) (dlOff dlSize : Nat) : Option Nat :=
  if dlSize < 4 then none
  else
    let prim := byteAt data dlOff
    if ¬(0x80 ≤ prim ∧ prim ≤ 0x9f) then none
    else
      let count := u16At data (dlOff + 1)
      if count = 0 ∨ count > 0x4000 then none
      else
        let r := scanStrideClassify data dlOff dlSize prim count strideRange
        match r.1 with
        | s :: _ => some s
        | [] =>
          match r.2.1 with
          | s :: _ => some s
          | [] =>
            match r.2.2 with
            | s :: _ => some s
            | [] => none

/-- Errors of geometry construction. -/
inductive GeomErr where
  | subarrayOOB : GeomErr
  | notDrawPrim : GeomErr
  | truncated : GeomErr
deriving DecidableEq, Repr

/-- A decoded display-list geometry: the primitive byte, the declared
draw count, the per-vertex byte width of the descriptor used, and the
byte size of the display-list window it was decoded from. -/
structure Geom where
  prim : Nat
  count : Nat
  stride : Nat
  dlSize : Nat
deriving DecidableEq, Repr

/-- Modelled from the spec: `new ShapeGeometry(vtxArrays, vcd, vat,
displayList, ...)` — the GX display-list decode of shapes.ts and
gx/gx_displaylist.ts, which are absent from the sources.  Per the spec's
glossary a display list is "primitive type, vertex count, packed
per-vertex indices": a 3-byte header (draw opcode `0x80..0x9f` and a
16-bit count) followed by `count` per-vertex records of
index-plus-direct width; construction throws (here: errors) when the
window overruns the buffer, the header is not a draw, or the records run
past the end of the window. -/
def shapeGeometry (data : Bytes) (dlOff dlSize : Nat) (vcd : Vcd) : Except GeomErr Geom :=
  if dlOff + dlSize > data.length then .error .subarrayOOB
  else if dlSize < 3 then .error .truncated
  else
    let prim := byteAt data dlOff
    if ¬(0x80 ≤ prim ∧ prim ≤ 0x9f) then .error .notDrawPrim
    else
      let count := u16At data (dlOff + 1)
      let stride := vcdIndexBytes vcd + vcdDirectBytes vcd
      if 3 + count * stride ≤ dlSize then .ok ⟨prim, count, stride, dlSize⟩
      else .error .truncated

theorem scanStrideClassify_mem_lt (data : Bytes) (dlOff dlSize prim count : Nat)
    (l : List Nat) (s : Nat)
    (h : s ∈ (scanStrideClassify data dlOff dlSize prim count l).1 ++
      (scanStrideClassify data dlOff dlSize prim count l).2.1 ++
      (scanStrideClassify data dlOff dlSize prim count l).2.2) :
    dlOff + 3 + count * s < dlOff + dlSize := by
  induction l with
  | nil => simp [scanStrideClassify] at h
  | cons a rest ih =>
    rw [scanStrideClassify] at h
    by_cases hpos : dlOff + 3 + count * a ≥ dlOff + dlSize
    · rw [if_pos hpos] at h
      simp at h
    · rw [if_neg hpos] at h
      dsimp only at h
      by_cases h1 : byteAt data (dlOff + 3 + count * a) = prim
      · rw [if_pos h1] at h
        simp only [List.mem_append, List.mem_cons] at h
        rcases h with ((rfl | h) | h) | h
        · omega
        · exact ih (by simp only [List.mem_append]; tauto)
        · exact ih (by simp only [List.mem_append]; tauto)
        · exact ih (by simp only [List.mem_append]; tauto)
      · rw [if_neg h1] at h
        by_cases h2 : 0x80 ≤ byteAt data (dlOff + 3 + count * a) ∧
            byteAt data (dlOff + 3 + count * a) ≤ 0x9f
        · rw [if_pos h2] at h
          simp only [List.mem_append, List.mem_cons] at h
          rcases h with (h | (rfl | h)) | h
          · exact ih (by simp only [List.mem_append]; tauto)
          · omega
          · exact ih (by simp only [List.mem_append]; tauto)
          · exact ih (by simp only [List.mem_append]; tauto)
        · rw [if_neg h2] at h
          by_cases h3 : byteAt data (dlOff + 3 + count * a) = 0x61 ∨
              byteAt data (dlOff + 3 + count * a) = 0x08 ∨
              byteAt data (dlOff + 3 + count * a) = 0x10 ∨
              byteAt data (dlOff + 3 + count * a) = 0x20 ∨
              byteAt data (dlOff + 3 + count * a) = 0x40
          · rw [if_pos h3] at h
            simp only [List.mem_append, List.mem_cons] at h
            rcases h with (h | h) | (rfl | h)
            · exact ih (by simp only [List.mem_append]; tauto)
            · exact ih (by simp only [List.mem_append]; tauto)
            · omega
            · exact ih (by simp only [List.mem_append]; tauto)
          · rw [if_neg h3] at h
            exact ih h

/-- C5: for every display list successfully decoded into a shape, the
descriptor actually used satisfies
`3 + vertexCount * (indexBytes + directBytes) ≤ displayListByteSize`,
with `vertexCount` the draw count declared in the display-list header;
and every candidate stride the recovery scan can force satisfies the
(strict) bound against the declared count. -/
theorem c5_stride_consistency (data : Bytes) (dlOff dlSize : Nat) (vcd : Vcd) :
    (∀ g, shapeGeometry data dlOff dlSize vcd = .ok g →
      g.count = u16At data (dlOff + 1) ∧
      3 + g.count * (vcdIndexBytes vcd + vcdDirectBytes vcd) ≤ dlSize) ∧
    (∀ s ∈ scanStrideCandidates data dlOff dlSize,
      dlOff + 3 + u16At data (dlOff + 1) * s < dlOff + dlSize) := by
  constructor
  · intro g hg
    unfold shapeGeometry at hg
    dsimp only at hg
    split_ifs at hg
    injection hg with hg
    subst hg
    constructor
    · rfl
    · assumption
  · intro s hs
    unfold scanStrideCandidates at hs
    dsimp only at hs
    split_ifs at hs
    all_goals
      first
      | exact scanStrideClassify_mem_lt data dlOff dlSize _ _ strideRange s hs
      | simp at hs

/-- A 7-byte display list `90 00 01 aa aa 90 00` for the C5 witness. -/
def c5Data : Bytes := [0x90, 0, 1, 0xaa, 0xaa, 0x90, 0]

/-- Witness for C5: the display list `c5Data` decodes under a
1-byte-stride descriptor with declared count 1 within its 7 bytes, and
stride 2 is a scan candidate meeting the strict bound. -/
theorem c5_stride_consistency_witness :
    3 + (1 : Nat) * (vcdIndexBytes { pos := .INDEX8 } + vcdDirectBytes { pos := .INDEX8 }) ≤ 7 ∧
    0 + 3 + u16At c5Data (0 + 1) * 2 < 0 + 7 :=
  ⟨((c5_stride_consistency c5Data 0 7 { pos := .INDEX8 }).1
      { prim := 0x90, count := 1, stride := 1, dlSize := 7 } rfl).2,
   (c5_stride_consistency c5Data 0 7 { pos := .INDEX8 }).2 2 (by decide)⟩

/-! ## The bit-level command-stream reader

Modelled from the spec: `LowBitReader` of util.ts (absent from the
sources) — the spec's "dedicated bit-reader type exposing readBits(n),
seekBit(addr)" over the model buffer, reading bits most-significant
first from the byte at the reader's base offset.  The cursor is the bit
index relative to the base. -/

/-- Bit `i` (MSB-first) of the stream starting at byte `base`. -/
def bitAt (data : Bytes) (base i : Nat) : Nat :=
  byteAt data (base + i / 8) >>> (7 - i % 8) &&& 1

/-- `bits.get(n)`: the value of the `n` bits at cursor `pos`. -/
def getBits (data : Bytes) (base pos n : Nat) : Nat :=
  (List.range n).foldl (fun acc j => 2 * acc + bitAt data base (pos + j)) 0

/-! ## Vertex-descriptor reconstruction (`readVertexDesc`)

modelloader.ts lines 1187-1264.  The context record carries the
`loadModel` locals the closure captures. -/

/-- The `loadModel` locals `readVertexDesc` reads. -/
structure VcdCtx where
  hasBones : Bool
  jointCount : Nat
  texMtxCount : Nat
  hasNormals : Bool
  oldVat : Bool
  isMapBlock : Bool
  isEarly34Map : Bool
  hasColorTable : Bool
deriving DecidableEq, Repr

/-- The probe/NBT texture-matrix slots plus the object-space texture
matrices packed from slot 7 downward.  The source decrements a slot
index below zero when `texMtxCount > 8`; such writes land on negative
array indices that no reader ever sees, so slots are only set for
`i < 8`. -/
def matrixSlots (p : VcdCtx) (sh : Shader) : Vcd :=
  if p.hasBones ∧ p.jointCount ≥ 2 then
    let tex0 : List AttrType := List.replicate 8 .NONE
    let tex1 :=
      if sh.hasHemisphericProbe ∨ sh.hasReflectiveProbe then
        if sh.hasNBTTexture then
          ((tex0.set 0 .DIRECT).set 1 .DIRECT).set 2 .DIRECT
        else tex0.set 0 .DIRECT
      else tex0
    let tex2 := (List.range p.texMtxCount).foldl
      (fun acc i => if i < 8 then acc.set (7 - i) .DIRECT else acc) tex1
    { pnmtxidx := .DIRECT, texmtxidx := tex2 }
  else {}

/-- The CLR0 step of `readVertexDesc`: when wanted, consume exactly one
size bit (Early3/4 maps force INDEX16 but still consume it); otherwise
CLR0 is absent and no bit is read. -/
def clr0Step (data : Bytes) (base : Nat) (isEarly34Map wantClr0 : Bool) (pos : Nat) :
    AttrType × Nat :=
  if wantClr0 then
    if isEarly34Map then (.INDEX16, pos + 1)
    else ((if getBits data base pos 1 ≠ 0 then AttrType.INDEX16 else .INDEX8), pos + 1)
  else (.NONE, pos)

/-- `readVertexDesc` before the legacy byte re-alignment: matrix slots,
then one size bit each for POS, NRM (if present), CLR0 (if wanted) and a
single shared bit for all present texture layers. -/
def readVertexDescCore (data : Bytes) (base : Nat) (p : VcdCtx) (sh : Shader) (pos : Nat) :
    Vcd × Nat :=
  let vcd1 := matrixSlots p sh
  let vcd2 := { vcd1 with
    pos := if getBits data base pos 1 ≠ 0 then AttrType.INDEX16 else .INDEX8 }
  let pos1 := pos + 1
  let nrmStep : AttrType × Nat :=
    if p.hasNormals ∧ sh.attrFlags &&& ShaderAttrFlags.NRM ≠ 0 then
      ((if getBits data base pos1 1 ≠ 0 then AttrType.INDEX16 else .INDEX8), pos1 + 1)
    else (.NONE, pos1)
  let pos2 := nrmStep.2
  let mapHasPalette := p.hasColorTable && p.isMapBlock
  let wantClr0 := mapHasPalette || decide (sh.attrFlags &&& ShaderAttrFlags.CLR ≠ 0)
  let clrStep := clr0Step data base p.isEarly34Map wantClr0 pos2
  let pos3 := clrStep.2
  let texStep : List AttrType × Nat :=
    if sh.layers.length > 0 then
      let texCoordDesc := getBits data base pos3 1
      ((List.range 8).map (fun t =>
        if t < sh.layers.length then
          (if texCoordDesc ≠ 0 then AttrType.INDEX16 else .INDEX8)
        else .NONE), pos3 + 1)
    else (List.replicate 8 .NONE, pos3)
  ({ vcd2 with nrm := nrmStep.1, clr0 := clrStep.1, tex := texStep.1 }, texStep.2)

/-- `readVertexDesc` including the DEMO/BETA quirk: for legacy (oldVat)
formats the reader re-aligns to the next byte boundary afterwards. -/
def readVertexDesc (data : Bytes) (base : Nat) (p : VcdCtx) (sh : Shader) (pos : Nat) :
    Vcd × Nat :=
  let core := readVertexDescCore data base p sh pos
  let pos4 := core.2
  let pos5 :=
    if p.oldVat then (if pos4 % 8 ≠ 0 then pos4 + (8 - pos4 % 8) else pos4)
    else pos4
  (core.1, pos5)

/-- The CLR0 step consumes exactly one bit iff the color attribute is
wanted, and yields an absent attribute iff it is not. -/
theorem clr0Step_spec (data : Bytes) (base : Nat) (e w : Bool) (pos : Nat) :
    (clr0Step data base e w pos).2 = (if w then pos + 1 else pos) ∧
    ((clr0Step data base e w pos).1 = AttrType.NONE ↔ w = false) := by
  cases w
  · simp [clr0Step]
  · cases e
    · unfold clr0Step
      simp only [if_true, Bool.false_eq_true, if_false]
      refine ⟨by trivial, ?_⟩
      constructor
      · intro h
        split_ifs at h <;> cases h
      · intro h
        cases h
    · unfold clr0Step
      simp only [if_true, Bool.false_eq_true, if_false]
      refine ⟨by trivial, ?_⟩
      constructor <;> intro h <;> cases h

/-- C9: during vertex-descriptor reconstruction the CLR0 size bit is
consumed from the stream exactly when the shader declares a color
attribute or the asset is map geometry with a non-empty (resolved) color
table, and in all other cases CLR0 is set to absent with no bit
consumed: the cursor advances by 1 (POS) + the NRM bit + the CLR0 bit
(present iff wanted) + the shared TEX bit. -/
theorem c9_clr0_bit_consumed_iff (data : Bytes) (base : Nat) (p : VcdCtx) (sh : Shader)
    (pos : Nat) :
    ((readVertexDescCore data base p sh pos).2 =
      pos + 1 +
      (if p.hasNormals ∧ sh.attrFlags &&& ShaderAttrFlags.NRM ≠ 0 then 1 else 0) +
      (if (p.hasColorTable && p.isMapBlock) ||
          decide (sh.attrFlags &&& ShaderAttrFlags.CLR ≠ 0) then 1 else 0) +
      (if sh.layers.length > 0 then 1 else 0)) ∧
    ((readVertexDescCore data base p sh pos).1.clr0 = AttrType.NONE ↔
      ((p.hasColorTable && p.isMapBlock) ||
        decide (sh.attrFlags &&& ShaderAttrFlags.CLR ≠ 0)) = false) := by
  have hspec := fun w pos2 => clr0Step_spec data base p.isEarly34Map w pos2
  unfold readVertexDescCore
  dsimp only
  constructor
  · rw [(hspec _ _).1]
    split_ifs <;> omega
  · exact (hspec _ _).2

/-! ## The command-stream interpreter (`runBitstream`,
`runSpecialBitstreamMulti`)

modelloader.ts lines 1309-1372 and 1524-1983.  Materials are built
through the external material-factory capability (spec section 6); the
embedding records which factory entry was called with which shader.
Geometry construction is the spec-modelled `shapeGeometry`.  Loops carry
explicit fuel; past-the-end bit reads yield zero bits (opcode 0), which
both loops treat as described by their default cases. -/

/-- Modelled from the spec: the material-factory capability
(`buildMapMaterial` / `buildObjectMaterial` / `buildWaterMaterial` /
`buildFurMaterial` of materials.ts, absent from the sources), recorded
symbolically. -/
inductive SFAMaterial where
  | mapMat : Shader → SFAMaterial
  | objMat : Shader → Bool → SFAMaterial
  | waterMat : Shader → SFAMaterial
  | furMat : Shader → SFAMaterial
deriving DecidableEq, Repr

/-- A produced shape: its decoded geometry, its material and the
dev-geometry-only flag. -/
structure Shape where
  geom : Geom
  material : SFAMaterial
  devGeom : Bool
deriving DecidableEq, Repr

/-- Interpreter-level failures (JavaScript exceptions that escape). -/
inductive RErr where
  | geom : GeomErr → RErr
  | badShaderIndex : RErr
  | tooManyPNMatrices : RErr
deriving DecidableEq, Repr

/-- The `loadModel` locals the interpreter closures capture, plus the
per-stream `bitsOffset`/`drawStep`. -/
structure Ctx where
  data : Bytes
  dlInfos : List DLInfo
  numListBits : Nat
  isMapBlock : Bool
  oldVat : Bool
  hasNormals : Bool
  hasBones : Bool
  shaderIsEarly1 : Bool
  shaderIsEarly3 : Bool
  shaderIsold : Bool
  versionIsEarly1 : Bool
  versionIsEarly3 : Bool
  isEarly34Map : Bool
  hasColorTable : Bool
  usingDummyClr : Bool
  hasFineSkinning : Bool
  hasSkinning : Bool
  jointCount : Nat
  texMtxCount : Nat
  bitsOffsets : List Nat
  drawStep : Nat
  bitsOffset : Nat
deriving Repr

/-- The `readVertexDesc` context of a `Ctx`. -/
def Ctx.vcdCtx (c : Ctx) : VcdCtx :=
  { hasBones := c.hasBones, jointCount := c.jointCount, texMtxCount := c.texMtxCount,
    hasNormals := c.hasNormals, oldVat := c.oldVat, isMapBlock := c.isMapBlock,
    isEarly34Map := c.isEarly34Map, hasColorTable := c.hasColorTable }

/-- `runBitstream` mutable state: the bit cursor, the current shader
index (the source's `curShader` aliases `shaders[curShaderNum]`), the
shader table (mutated by the Early1/3 alpha-compare patch), the
`model.materials` cache (a sparse array, as an association list), the
current material and descriptor, the PN-matrix map and the three shape
accumulators. -/
structure St where
  pos : Nat
  curShaderNum : Nat
  shaders : List Shader
  materials : List (Nat × SFAMaterial)
  curMaterial : SFAMaterial
  vcd : Vcd
  pnMatrixMap : List Nat
  shapes : List Shape
  waters : List Shape
  furs : List (Shape × Nat)
  done : Bool
deriving DecidableEq, Repr

/-- `setShader(num)`: cache-or-build the material for shader `num` (for
maps with a dummy color table, from a clone with the CLR attribute
cleared) and make it current.  An out-of-range index leaves `curShader`
undefined and the factory call throws. -/
def setShader (c : Ctx) (st : St) (num : Nat) : Except RErr St :=
  match st.shaders.get? num with
  | none => .error .badShaderIndex
  | some sh =>
    match st.materials.find? (fun q => q.1 == num) with
    | some q =>
      .ok { st with curShaderNum := num, curMaterial := q.2 }
    | none =>
      let m :=
        if c.isMapBlock then
          if c.usingDummyClr then
            SFAMaterial.mapMat { sh with attrFlags := sh.attrFlags &&& 0xFFFFFFFE }
          else SFAMaterial.mapMat sh
        else SFAMaterial.objMat sh c.hasSkinning
      .ok { st with curShaderNum := num, materials := (num, m) :: st.materials,
                    curMaterial := m }

/-- `dlHasAlphaCompare`: scan the display-list bytes for a BP write
(`0x61`) to the alpha-compare register (`0xF3`). -/
def dlHasAlphaCompare (data : Bytes) (off size : Nat) : Bool :=
  (List.range size).any (fun i =>
    decide (i + 4 < size) && (byteAt data (off + i) == 0x61) &&
    (byteAt data (off + i + 1) == 0xF3))

/-- `tuneVCDForDL`: on legacy formats, force the descriptor to the
guessed stride when the guess differs and the forced rebuild lands
exactly on it. -/
def tuneVCDForDL (data : Bytes) (dlOff dlSize : Nat) (baseVcd : Vcd) (oldVat : Bool) : Vcd :=
  if ¬oldVat ∨ dlSize < 4 then baseVcd
  else
    match guessTargetStride data dlOff dlSize with
    | none => baseVcd
    | some target =>
      let curStride := vcdIndexBytes baseVcd + vcdDirectBytes baseVcd
      if curStride = target then baseVcd
      else
        let forced := forceVCDStrideTo baseVcd target
        let newStride := vcdIndexBytes forced + vcdDirectBytes forced
        if newStride = target then forced else baseVcd

/-- The format-family dedicated-water-pass stream index (`-1` is
`none`). -/
def waterStreamIndex (c : Ctx) : Option Nat :=
  let isEarly1 := c.versionIsEarly1 || c.shaderIsEarly1
  let isEarly3 := c.versionIsEarly3 || c.shaderIsEarly3
  let isold := c.versionIsEarly1 || c.shaderIsold
  if isEarly1 ∧ c.bitsOffsets.length > 0 then
    some (if c.bitsOffsets.length ≥ 3 ∧ c.bitsOffsets.getD 2 0 ≠ 0 then 2
          else c.bitsOffsets.length - 1)
  else if isEarly3 ∧ c.bitsOffsets.length > 0 then
    some (c.bitsOffsets.length - 1)
  else if isold ∧ c.bitsOffsets.length > 0 then
    some (if c.bitsOffsets.length ≥ 3 ∧ c.bitsOffsets.getD 2 0 ≠ 0 then 2
          else c.bitsOffsets.length - 1)
  else none

/-- `isDedicatedWaterPass`. -/
def isDedicatedWaterPass (c : Ctx) : Bool :=
  c.isMapBlock &&
  (match waterStreamIndex c with
   | some i => c.drawStep == i
   | none => false)

/-- Layer count of a recorded fur shape: long → 16, medium → 8,
otherwise 4. -/
def furLayerCount (flags : Nat) : Nat :=
  if flags &&& ShaderFlags.LongFur ≠ 0 then 16
  else if flags &&& ShaderFlags.MediumFur ≠ 0 then 8
  else 4

/-! ### `runSpecialBitstreamMulti` -/

/-- The state of the special-bitstream loop. -/
structure MSt where
  pos : Nat
  locShader : Shader
  locMaterial : SFAMaterial
  locVcd : Vcd
  out : List Shape
  done : Bool
deriving DecidableEq, Repr

/-- One iteration of `runSpecialBitstreamMulti` (modelloader.ts lines
1327-1370).  Unknown opcodes terminate the loop like `End`. -/
def multiStep (c : Ctx) (shaders : List Shader) (buildMat : Shader → SFAMaterial)
    (keep : Shader → Bool) (st : MSt) : Except RErr MSt :=
  let op := getBits c.data c.bitsOffset st.pos 4
  let p := st.pos + 4
  if op = 1 then
    let shaderNum := getBits c.data c.bitsOffset p 6
    match shaders.get? shaderNum with
    | none => .error .badShaderIndex
    | some sh =>
      .ok { st with pos := p + 6, locShader := sh, locMaterial := buildMat sh }
  else if op = 3 then
    let r := readVertexDesc c.data c.bitsOffset c.vcdCtx st.locShader p
    .ok { st with pos := r.2, locVcd := r.1 }
  else if op = 4 then
    let numBones := getBits c.data c.bitsOffset p 4
    .ok { st with pos := p + 4 + 8 * numBones }
  else if op = 2 then
    let listNum := getBits c.data c.bitsOffset p c.numListBits
    let p2 := p + c.numListBits
    if listNum ≥ c.dlInfos.length then .ok { st with pos := p2 }
    else if ¬keep st.locShader then .ok { st with pos := p2 }
    else
      match c.dlInfos.get? listNum with
      | none => .ok { st with pos := p2 }
      | some di =>
        match shapeGeometry c.data di.offset di.size st.locVcd with
        | .error e => .error (.geom e)
        | .ok g =>
          .ok { st with pos := p2,
                        out := st.out ++ [⟨g, st.locMaterial, false⟩] }
  else if op = 5 then .ok { st with pos := p, done := true }
  else .ok { st with pos := p, done := true }

/-- The fuelled special-bitstream loop; with exhausted fuel the
accumulated state is returned (the source loop always terminates because
a past-the-end read throws; the model's zero-filled reads hit the
default case instead). -/
def multiLoop (c : Ctx) (shaders : List Shader) (buildMat : Shader → SFAMaterial)
    (keep : Shader → Bool) : Nat → MSt → Except RErr MSt
  | 0, st => .ok st
  | fuel + 1, st =>
    if st.done then .ok st
    else
      match multiStep c shaders buildMat keep st with
      | .error e => .error e
      | .ok st1 => multiLoop c shaders buildMat keep fuel st1

/-- `runSpecialBitstreamMulti(bitsOffset, bitAddress, buildSpecialMaterial,
..., fallbackVcd, shouldKeepShader)`. -/
def runSpecialBitstreamMulti (c : Ctx) (shaders : List Shader)
    (buildMat : Shader → SFAMaterial) (keep : Shader → Bool) (bitAddress : Nat)
    (fallbackVcd : Vcd) (fuel : Nat) : Except RErr (List Shape) :=
  match shaders.get? 0 with
  | none => .error .badShaderIndex
  | some sh0 =>
    let st0 : MSt := { pos := bitAddress, locShader := sh0,
                       locMaterial := buildMat sh0, locVcd := fallbackVcd,
                       out := [], done := false }
    match multiLoop c shaders buildMat keep fuel st0 with
    | .error e => .error e
    | .ok st => .ok st.out

/-! ### The `CallDL` dispatch of `runBitstream` -/

/-- `shouldKeepShader` of the water pull: Water set and Lava clear. -/
def keepWater (s : Shader) : Bool :=
  decide (s.flags &&& ShaderFlags.Water ≠ 0) && decide (s.flags &&& ShaderFlags.Lava = 0)

/-- `shouldKeepShader` of the fur pull: any fur-length flag. -/
def keepFur (s : Shader) : Bool :=
  decide (s.flags &&& (ShaderFlags.ShortFur ||| ShaderFlags.MediumFur |||
    ShaderFlags.LongFur) ≠ 0)

/-- The direct water build (modelloader.ts lines 1709-1720): geometry is
constructed with NO try/catch, so a failure escapes `runBitstream`. -/
def waterDirect (c : Ctx) (st : St) (di : DLInfo) (sh : Shader) : Except RErr St :=
  let tunedVcd := tuneVCDForDL c.data di.offset di.size st.vcd c.oldVat
  match shapeGeometry c.data di.offset di.size tunedVcd with
  | .error e => .error (.geom e)
  | .ok g =>
    .ok { st with waters := st.waters ++ [⟨g, SFAMaterial.waterMat sh, false⟩] }

/-- The water path: try the special bitstream first (errors propagate);
if it yields nothing, treat the current display list as water. -/
def waterPath (c : Ctx) (mfuel : Nat) (st : St) (di : DLInfo) (sh : Shader) :
    Except RErr St :=
  if di.specialBitAddress.getD 0 ≠ 0 then
    match runSpecialBitstreamMulti c st.shaders SFAMaterial.waterMat keepWater
        (di.specialBitAddress.getD 0) st.vcd mfuel with
    | .error e => .error e
    | .ok ws =>
      if ws.length > 0 then .ok { st with waters := st.waters ++ ws }
      else waterDirect c st di sh
  else waterDirect c st di sh

/-- Retry Z: the alternative-stride chain, forced from the UN-tuned
descriptor; a candidate is tried only when the forced rebuild lands
exactly on it. -/
def retryAltStrides (c : Ctx) (st : St) (di : DLInfo) (mat : SFAMaterial) (dev : Bool) :
    List Nat → Option St
  | [] => none
  | s :: rest =>
    let vcdAlt := forceVCDStrideTo st.vcd s
    if vcdIndexBytes vcdAlt + vcdDirectBytes vcdAlt ≠ s then
      retryAltStrides c st di mat dev rest
    else
      match shapeGeometry c.data di.offset di.size vcdAlt with
      | .ok g => some { st with shapes := st.shapes ++ [⟨g, mat, dev⟩] }
      | .error _ => retryAltStrides c st di mat dev rest

/-- The fur path (modelloader.ts lines 1910-1929): only on draw pass 0,
only for fur-flagged shaders with a non-zero special bit address; the
first pulled shape is recorded with the derived layer count. -/
def furStep (c : Ctx) (mfuel : Nat) (st : St) (di : DLInfo) (sh : Shader) :
    Except RErr St :=
  if c.drawStep = 0 ∧
      sh.flags &&& (ShaderFlags.ShortFur ||| ShaderFlags.MediumFur |||
        ShaderFlags.LongFur) ≠ 0 ∧
      di.specialBitAddress.getD 0 ≠ 0 then
    match runSpecialBitstreamMulti c st.shaders SFAMaterial.furMat keepFur
        (di.specialBitAddress.getD 0) st.vcd mfuel with
    | .error e => .error e
    | .ok furShapes =>
      match furShapes.head? with
      | some firstFur =>
        .ok { st with furs := st.furs ++ [(firstFur, furLayerCount sh.flags)] }
      | none => .ok st
  else .ok st

/-- The tiny-DL guard (modelloader.ts lines 1740-1762): inside its own
try/catch, read the primitive and count from the file and skip the
display list when the needed bytes exceed its size; a read failure is
swallowed and the guard does not fire. -/
def tinyGuardSkip (data : Bytes) (di : DLInfo) (tunedVcd : Vcd) : Bool :=
  match getU8? data di.offset, getU16? data (di.offset + 1) with
  | some prim, some cnt =>
    if 0x80 ≤ prim ∧ prim ≤ 0x9f ∧ 0 < cnt then
      decide (3 + cnt * (vcdIndexBytes tunedVcd + vcdDirectBytes tunedVcd) > di.size)
    else false
  | _, _ => false

/-- The normal geometry path with its try/catch and retry chain, falling
through to the fur path on primary success or total failure (a
successful retry also skips the fur path, as the source `break` does). -/
def normalAndFur (c : Ctx) (mfuel : Nat) (st : St) (di : DLInfo) (sh : Shader) :
    Except RErr St :=
  let materialForDL :=
    if c.shaderIsEarly3 ∧ sh.flags &&& ShaderFlags.AlphaCompare = 0 ∧
        dlHasAlphaCompare c.data di.offset di.size then
      let cloned := { sh with flags := sh.flags ||| ShaderFlags.AlphaCompare }
      if c.isMapBlock then SFAMaterial.mapMat cloned
      else SFAMaterial.objMat cloned (c.hasBones ∧ c.jointCount ≥ 2)
    else st.curMaterial
  let dev := sh.flags &&& ShaderFlags.DevGeometry ≠ 0
  let tunedVcd := tuneVCDForDL c.data di.offset di.size st.vcd c.oldVat
  if tinyGuardSkip c.data di tunedVcd then .ok st
  else
    match shapeGeometry c.data di.offset di.size tunedVcd with
    | .ok g =>
      furStep c mfuel { st with shapes := st.shapes ++ [⟨g, materialForDL, dev⟩] } di sh
    | .error _ =>
      match retryAltStrides c st di materialForDL dev
          (scanStrideCandidates c.data di.offset di.size) with
      | some st1 => .ok st1
      | none =>
        let retryB : Except RErr St :=
          if tunedVcd.pnmtxidx = .DIRECT then
            let vcdRetry := { tunedVcd with pnmtxidx := .NONE }
            match shapeGeometry c.data di.offset di.size vcdRetry with
            | .ok g =>
              .ok { st with shapes := st.shapes ++ [⟨g, materialForDL, dev⟩] }
            | .error _ =>
              if di.size > 0x20 then
                match shapeGeometry c.data (di.offset + 0x20) (di.size - 0x20) vcdRetry with
                | .ok g =>
                  .ok { st with shapes := st.shapes ++ [⟨g, materialForDL, dev⟩] }
                | .error _ => furStep c mfuel st di sh
              else furStep c mfuel st di sh
          else furStep c mfuel st di sh
        if di.size > 0x20 then
          match shapeGeometry c.data (di.offset + 0x20) (di.size - 0x20) tunedVcd with
          | .ok g => .ok { st with shapes := st.shapes ++ [⟨g, materialForDL, dev⟩] }
          | .error _ => retryB
        else retryB

/-- The `CallDL` case of `runBitstream` (modelloader.ts lines
1584-1931): range and validity checks, the Early1/3 alpha-compare patch
into the shader table, then the water path or the normal-plus-fur
path. -/
def callDL (c : Ctx) (mfuel : Nat) (st : St) (listNum : Nat) : Except RErr St :=
  if listNum ≥ c.dlInfos.length then .ok st
  else
    match c.dlInfos.get? listNum with
    | none => .ok st
    | some di =>
      if di.offset = 0 ∨ di.size = 0 ∨ di.offset + di.size > c.data.length then .ok st
      else
        match st.shaders.get? st.curShaderNum with
        | none => .error .badShaderIndex
        | some sh0 =>
          let sh1 :=
            if (c.shaderIsEarly1 ∨ c.shaderIsEarly3) ∧
                sh0.flags &&& ShaderFlags.AlphaCompare = 0 ∧
                dlHasAlphaCompare c.data di.offset di.size then
              { sh0 with flags := sh0.flags ||| ShaderFlags.AlphaCompare }
            else sh0
          let st1 := { st with shaders := st.shaders.set st.curShaderNum sh1 }
          if sh1.flags &&& ShaderFlags.Lava = 0 ∧
              (sh1.flags &&& ShaderFlags.Water ≠ 0 ∨ isDedicatedWaterPass c = true) then
            waterPath c mfuel st1 di sh1
          else normalAndFur c mfuel st1 di sh1

/-! ### The `runBitstream` opcode loop -/

/-- One iteration of the `runBitstream` `while` loop.  Note the default
case: unknown opcodes are skipped and the loop continues (unlike the
special-bitstream loop, which stops). -/
def runStep (c : Ctx) (mfuel : Nat) (st : St) : Except RErr St :=
  let op := getBits c.data c.bitsOffset st.pos 4
  let p := st.pos + 4
  if op = 1 then
    let shaderNum := getBits c.data c.bitsOffset p 6
    setShader c { st with pos := p + 6 } shaderNum
  else if op = 2 then
    let listNum := getBits c.data c.bitsOffset p c.numListBits
    callDL c mfuel { st with pos := p + c.numListBits } listNum
  else if op = 3 then
    match st.shaders.get? st.curShaderNum with
    | none => .error .badShaderIndex
    | some sh =>
      let r := readVertexDesc c.data c.bitsOffset c.vcdCtx sh p
      .ok { st with pos := r.2, vcd := r.1 }
  else if op = 4 then
    let numBones := getBits c.data c.bitsOffset p 4
    if numBones > 10 then .error .tooManyPNMatrices
    else
      let pm := (List.range numBones).foldl
        (fun m i => m.set i (getBits c.data c.bitsOffset (p + 4 + 8 * i) 8))
        st.pnMatrixMap
      .ok { st with pos := p + 4 + 8 * numBones, pnMatrixMap := pm }
  else if op = 5 then .ok { st with pos := p, done := true }
  else .ok { st with pos := p }

/-- The fuelled `runBitstream` loop. -/
def runLoop (c : Ctx) (mfuel : Nat) : Nat → St → Except RErr St
  | 0, st => .ok st
  | fuel + 1, st =>
    if st.done then .ok st
    else
      match runStep c mfuel st with
      | .error e => .error e
      | .ok st1 => runLoop c mfuel fuel st1

/-- `runBitstream`: reset the pass accumulators, bail out on a zero
stream offset, set shader 0 and run the opcode loop. -/
def runBitstream (c : Ctx) (shaders : List Shader) (fuel mfuel : Nat) :
    Except RErr St :=
  let st0 : St :=
    { pos := 0, curShaderNum := 0, shaders := shaders, materials := [],
      curMaterial := SFAMaterial.mapMat {}, vcd := {},
      pnMatrixMap := List.replicate 10 0, shapes := [], waters := [], furs := [],
      done := false }
  if c.bitsOffset = 0 then .ok { st0 with done := true }
  else
    match setShader c st0 0 with
    | .error e => .error e
    | .ok st1 => runLoop c mfuel fuel st1

/-- C3 (amended): when the special-bitstream interpreter
(`runSpecialBitstreamMulti`) reads an opcode that is not
SetShader/CallDL/SetVCD/SetMatrices/End it terminates that stream as if
`End` had been read; the main interpreter (`runBitstream`), however,
SKIPS the unknown opcode and continues reading further opcodes. -/
theorem c3_unknown_opcode_behaviour (c : Ctx) (mfuel : Nat) (st : St) (mst : MSt)
    (shaders : List Shader) (buildMat : Shader → SFAMaterial) (keep : Shader → Bool) :
    ((∀ k ∈ [1, 2, 3, 4, 5], getBits c.data c.bitsOffset st.pos 4 ≠ k) →
      runStep c mfuel st = .ok { st with pos := st.pos + 4 }) ∧
    ((∀ k ∈ [1, 2, 3, 4, 5], getBits c.data c.bitsOffset mst.pos 4 ≠ k) →
      multiStep c shaders buildMat keep mst =
        .ok { mst with pos := mst.pos + 4, done := true }) := by
  constructor
  · intro hne
    unfold runStep
    rw [if_neg (hne 1 (by simp)), if_neg (hne 2 (by simp)), if_neg (hne 3 (by simp)),
      if_neg (hne 4 (by simp)), if_neg (hne 5 (by simp))]
  · intro hne
    unfold multiStep
    rw [if_neg (hne 1 (by simp)), if_neg (hne 3 (by simp)), if_neg (hne 4 (by simp)),
      if_neg (hne 2 (by simp)), if_neg (hne 5 (by simp))]

/-- A minimal loop state for the C3 witness. -/
def c3WitnessSt : St :=
  { pos := 0, curShaderNum := 0, shaders := [{}], materials := [],
    curMaterial := SFAMaterial.mapMat {}, vcd := {},
    pnMatrixMap := List.replicate 10 0, shapes := [], waters := [], furs := [],
    done := false }

/-- A minimal special-loop state for the C3 witness. -/
def c3WitnessMSt : MSt :=
  { pos := 0, locShader := {}, locMaterial := SFAMaterial.mapMat {}, locVcd := {},
    out := [], done := false }

/-- A context whose stream is all-zero bits: every opcode reads as 0. -/
def c3WitnessCtx : Ctx :=
  { data := [0, 0], dlInfos := [], numListBits := 6, isMapBlock := false,
    oldVat := false, hasNormals := false, hasBones := false,
    shaderIsEarly1 := false, shaderIsEarly3 := false, shaderIsold := false,
    versionIsEarly1 := false, versionIsEarly3 := false, isEarly34Map := false,
    hasColorTable := false, usingDummyClr := false, hasFineSkinning := false,
    hasSkinning := false, jointCount := 0, texMtxCount := 0, bitsOffsets := [],
    drawStep := 1, bitsOffset := 0 }

/-- Witness for C3: on an all-zero stream (opcode 0), the main loop
skips 4 bits and continues while the special loop stops. -/
theorem c3_unknown_opcode_witness :
    runStep c3WitnessCtx 0 c3WitnessSt = .ok { c3WitnessSt with pos := 4 } ∧
    multiStep c3WitnessCtx [] (SFAMaterial.waterMat) keepWater c3WitnessMSt =
      .ok { c3WitnessMSt with pos := 4, done := true } :=
  ⟨(c3_unknown_opcode_behaviour c3WitnessCtx 0 c3WitnessSt c3WitnessMSt []
      SFAMaterial.waterMat keepWater).1 (by decide),
   (c3_unknown_opcode_behaviour c3WitnessCtx 0 c3WitnessSt c3WitnessMSt []
      SFAMaterial.waterMat keepWater).2 (by decide)⟩

/-- A stream whose first opcode is unknown (0), followed by
`CallDL 0` and `End`; the referenced display list `90 00 00` is an
empty draw at offset 1. -/
def c3CounterCtx : Ctx :=
  { data := [0xAA, 0x90, 0, 0, 0x02, 0x01, 0x40],
    dlInfos := [{ offset := 1, size := 3 }], numListBits := 6, isMapBlock := false,
    oldVat := false, hasNormals := false, hasBones := false,
    shaderIsEarly1 := false, shaderIsEarly3 := false, shaderIsold := false,
    versionIsEarly1 := false, versionIsEarly3 := false, isEarly34Map := false,
    hasColorTable := false, usingDummyClr := false, hasFineSkinning := false,
    hasSkinning := false, jointCount := 0, texMtxCount := 0, bitsOffsets := [],
    drawStep := 1, bitsOffset := 4 }

/-- Counterexample to C3 as stated (for EVERY command stream the
interpreter terminates on an unknown opcode "rather than ... continuing
to read further opcodes"): `runBitstream` on a stream whose first opcode
is unknown still executes the following `CallDL` — one shape is
produced — before stopping at the genuine `End`.  Had the unknown opcode
acted as an implicit `End`, no shape would have been produced. -/
theorem c3_runbitstream_continues_counterexample :
    (runBitstream c3CounterCtx [{}] 10 5).toOption.map
      (fun st => (st.shapes.length, st.done)) = some (1, true) := by
  decide


/-! ## Claim C4: per-display-list decode failure handling -/

/-- The water path never records a fur shape. -/
theorem waterPath_furs (c : Ctx) (mfuel : Nat) (st : St) (di : DLInfo) (sh : Shader)
    (st' : St) (h : waterPath c mfuel st di sh = .ok st') : st'.furs = st.furs := by
  unfold waterPath waterDirect at h
  dsimp only at h
  repeat' split at h
  any_goals cases h
  any_goals exact rfl

/-- The alternative-stride retry chain never records a fur shape. -/
theorem retryAltStrides_furs (c : Ctx) (st : St) (di : DLInfo) (mat : SFAMaterial)
    (dev : Bool) (l : List Nat) (st1 : St)
    (h : retryAltStrides c st di mat dev l = some st1) : st1.furs = st.furs := by
  induction l with
  | nil => cases h
  | cons s rest ih =>
    rw [retryAltStrides] at h
    split_ifs at h with hc
    · exact ih h
    · split at h
      · injection h with h; subst h; rfl
      · exact ih h

/-- The fur path records at most one fur shape, only under its three
guard conditions, and with the layer count derived from the shader
flags. -/
theorem furStep_furs (c : Ctx) (mfuel : Nat) (st : St) (di : DLInfo) (sh : Shader)
    (st' : St) (h : furStep c mfuel st di sh = .ok st') :
    st'.furs = st.furs ∨
    (c.drawStep = 0 ∧
     sh.flags &&& (ShaderFlags.ShortFur ||| ShaderFlags.MediumFur |||
       ShaderFlags.LongFur) ≠ 0 ∧
     di.specialBitAddress.getD 0 ≠ 0 ∧
     ∃ fs, st'.furs = st.furs ++ [(fs, furLayerCount sh.flags)]) := by
  unfold furStep at h
  split_ifs at h with hc
  · repeat' split at h
    all_goals try (cases h)
    all_goals try (injection h with h; subst h)
    all_goals
      first
        | exact Or.inl rfl
        | exact Or.inr ⟨hc.1, hc.2.1, hc.2.2, _, rfl⟩
  · injection h with h; subst h
    exact Or.inl rfl

/-- The whole normal-plus-fur path records a fur shape only under the
fur path's guard conditions. -/
theorem normalAndFur_furs (c : Ctx) (mfuel : Nat) (st : St) (di : DLInfo) (sh : Shader)
    (st' : St) (h : normalAndFur c mfuel st di sh = .ok st') :
    st'.furs = st.furs ∨
    (c.drawStep = 0 ∧
     sh.flags &&& (ShaderFlags.ShortFur ||| ShaderFlags.MediumFur |||
       ShaderFlags.LongFur) ≠ 0 ∧
     di.specialBitAddress.getD 0 ≠ 0 ∧
     ∃ fs, st'.furs = st.furs ++ [(fs, furLayerCount sh.flags)]) := by
  unfold normalAndFur at h
  dsimp only at h
  repeat' split at h
  all_goals try (injection h with h; subst h)
  all_goals
    first
      | exact Or.inl rfl
      | exact Or.inl (retryAltStrides_furs _ _ _ _ _ _ _ (by assumption))
      | exact (furStep_furs _ _ _ _ _ _ h).imp (fun hx => hx) (fun hx => hx)

/-- C8: whenever a `CallDL` dispatch extends the fur-shape list, the
current draw pass is 0, the referenced display-list entry has a non-zero
special bit address, and the active shader has a short/medium/long fur
flag; exactly one fur shape is appended, and its layer count is 16 for
LongFur, else 8 for MediumFur, else 4. -/
theorem c8_fur_conditions (c : Ctx) (mfuel : Nat) (st : St) (listNum : Nat) (st' : St)
    (h : callDL c mfuel st listNum = .ok st')
    (hgrow : st'.furs ≠ st.furs) :
    c.drawStep = 0 ∧
    ∃ (di : DLInfo) (sh : Shader), c.dlInfos.get? listNum = some di ∧
      di.specialBitAddress.getD 0 ≠ 0 ∧
      sh.flags &&& (ShaderFlags.ShortFur ||| ShaderFlags.MediumFur |||
        ShaderFlags.LongFur) ≠ 0 ∧
      (∃ fs, st'.furs = st.furs ++ [(fs, furLayerCount sh.flags)]) ∧
      furLayerCount sh.flags =
        (if sh.flags &&& ShaderFlags.LongFur ≠ 0 then 16
         else if sh.flags &&& ShaderFlags.MediumFur ≠ 0 then 8 else 4) := by
  unfold callDL at h
  by_cases h1 : listNum ≥ c.dlInfos.length
  · rw [if_pos h1] at h
    injection h with h; subst h; exact absurd rfl hgrow
  · rw [if_neg h1] at h
    cases hdi : c.dlInfos.get? listNum with
    | none =>
      rw [hdi] at h
      injection h with h; subst h; exact absurd rfl hgrow
    | some di =>
      rw [hdi] at h
      dsimp only at h
      by_cases h2 : di.offset = 0 ∨ di.size = 0 ∨ di.offset + di.size > c.data.length
      · rw [if_pos h2] at h
        injection h with h; subst h; exact absurd rfl hgrow
      · rw [if_neg h2] at h
        cases hsh : st.shaders.get? st.curShaderNum with
        | none => rw [hsh] at h; cases h
        | some sh0 =>
          rw [hsh] at h
          dsimp only at h
          generalize (if (c.shaderIsEarly1 = true ∨ c.shaderIsEarly3 = true) ∧
              sh0.flags &&& ShaderFlags.AlphaCompare = 0 ∧
              dlHasAlphaCompare c.data di.offset di.size = true then
            { sh0 with flags := sh0.flags ||| ShaderFlags.AlphaCompare } else sh0) = sh1
            at h
          split at h
          · have hwf := waterPath_furs _ _ _ _ _ _ h
            exact absurd hwf hgrow
          · rcases normalAndFur_furs _ _ _ _ _ _ h with hf | ⟨ha, hb, hcs, fs, hfs⟩
            · exact absurd hf hgrow
            · exact ⟨ha, di, sh1, rfl, hcs, hb, ⟨fs, hfs⟩, rfl⟩

/-- A file whose display list `90 00 00` is followed by a special
bitstream `CallDL 0, End` at bit address 8 of the stream base. -/
def c8Ctx : Ctx :=
  { data := [0xAA, 0x90, 0, 0, 0xFF, 0x20, 0x14],
    dlInfos := [{ offset := 1, size := 3, specialBitAddress := some 8 }],
    numListBits := 6, isMapBlock := false, oldVat := false, hasNormals := false,
    hasBones := false, shaderIsEarly1 := false, shaderIsEarly3 := false,
    shaderIsold := false, versionIsEarly1 := false, versionIsEarly3 := false,
    isEarly34Map := false, hasColorTable := false, usingDummyClr := false,
    hasFineSkinning := false, hasSkinning := false, jointCount := 0, texMtxCount := 0,
    bitsOffsets := [], drawStep := 0, bitsOffset := 4 }

/-- A state whose only shader carries the ShortFur flag. -/
def c8St : St :=
  { pos := 0, curShaderNum := 0, shaders := [{ flags := ShaderFlags.ShortFur }],
    materials := [], curMaterial := SFAMaterial.mapMat {}, vcd := {},
    pnMatrixMap := List.replicate 10 0, shapes := [], waters := [], furs := [],
    done := false }

/-- The state `callDL` actually produces on that input. -/
def c8StOut : St := (callDL c8Ctx 5 c8St 0).toOption.getD c8St

/-- Witness for C8: on the concrete input the fur list grows and all
the guard conditions are exhibited. -/
theorem c8_fur_conditions_witness :
    c8Ctx.drawStep = 0 ∧
    ∃ (di : DLInfo) (sh : Shader), c8Ctx.dlInfos.get? 0 = some di ∧
      di.specialBitAddress.getD 0 ≠ 0 ∧
      sh.flags &&& (ShaderFlags.ShortFur ||| ShaderFlags.MediumFur |||
        ShaderFlags.LongFur) ≠ 0 ∧
      (∃ fs, c8StOut.furs = c8St.furs ++ [(fs, furLayerCount sh.flags)]) ∧
      furLayerCount sh.flags =
        (if sh.flags &&& ShaderFlags.LongFur ≠ 0 then 16
         else if sh.flags &&& ShaderFlags.MediumFur ≠ 0 then 8 else 4) :=
  c8_fur_conditions c8Ctx 5 c8St 0 c8StOut (by rfl) (by decide)



/-! ## Claim C10: loadModel leaves the module-level tables unchanged -/

/-- Modelled from the spec: the GX attribute indices and component
type/count codes of `gx_enum.ts`, which is absent from the sources. -/
def GXAttr.POS : Nat := 9
def GXAttr.NRM : Nat := 10
def GXAttr.CLR0 : Nat := 11
def GXAttr.TEX0 : Nat := 13
def GXAttr.TEX1 : Nat := 14
def GXAttr.TEX2 : Nat := 15
def GXAttr.TEX3 : Nat := 16
def GXAttr.MAX : Nat := 20

/-- Modelled from the spec: GX component-type codes (`gx_enum.ts`). -/
def CompType.U8 : Nat := 0
def CompType.S8 : Nat := 1
def CompType.S16 : Nat := 3
def CompType.F32 : Nat := 4
def CompType.RGBA4 : Nat := 3
def CompType.RGBA8 : Nat := 5
def CompCnt.POS_XYZ : Nat := 1
def CompCnt.NRM_XYZ : Nat := 0
def CompCnt.NRM_NBT : Nat := 1
def CompCnt.CLR_RGBA : Nat := 1
def CompCnt.TEX_ST : Nat := 1

/-- One `GX_VtxAttrFmt` object: component type, quantization shift and
component count. -/
structure VtxAttrFmt where
  compType : Nat := 0
  compShift : Nat := 0
  compCnt : Nat := 0
deriving DecidableEq, Repr

/-- The all-U8 initialization of every VAT row (modelloader.ts lines
134-139). -/
def vatRowBase : List VtxAttrFmt :=
  List.replicate (GXAttr.MAX + 1)
    { compType := CompType.U8, compShift := 0, compCnt := 0 }

/-- `generateVat(old, nbt)` (modelloader.ts lines 133-193): the eight
vertex attribute table rows, as pure values. -/
def generateVat (old nbt : Bool) : List (List VtxAttrFmt) :=
  let nrmCnt := if nbt then CompCnt.NRM_NBT else CompCnt.NRM_XYZ
  [vatRowBase.set GXAttr.POS ⟨CompType.S16, 0, CompCnt.POS_XYZ⟩
     |>.set GXAttr.CLR0 ⟨CompType.RGBA8, 0, CompCnt.CLR_RGBA⟩
     |>.set GXAttr.TEX0 ⟨CompType.S16, 7, CompCnt.TEX_ST⟩,
   vatRowBase.set GXAttr.POS ⟨CompType.S16, 2, CompCnt.POS_XYZ⟩
     |>.set GXAttr.CLR0 ⟨CompType.RGBA8, 0, CompCnt.CLR_RGBA⟩
     |>.set GXAttr.TEX0 ⟨CompType.F32, 0, CompCnt.TEX_ST⟩,
   vatRowBase.set GXAttr.POS ⟨CompType.F32, 0, CompCnt.POS_XYZ⟩
     |>.set GXAttr.NRM ⟨CompType.F32, 0, CompCnt.NRM_XYZ⟩
     |>.set GXAttr.CLR0 ⟨CompType.RGBA8, 0, CompCnt.CLR_RGBA⟩
     |>.set GXAttr.TEX0 ⟨CompType.F32, 0, CompCnt.TEX_ST⟩
     |>.set GXAttr.TEX1 ⟨CompType.F32, 0, CompCnt.TEX_ST⟩,
   vatRowBase.set GXAttr.POS ⟨CompType.S16, 8, CompCnt.POS_XYZ⟩
     |>.set GXAttr.NRM ⟨CompType.S8, 0, nrmCnt⟩
     |>.set GXAttr.CLR0 ⟨CompType.RGBA4, 0, CompCnt.CLR_RGBA⟩
     |>.set GXAttr.TEX0 ⟨CompType.S16, 10, CompCnt.TEX_ST⟩
     |>.set GXAttr.TEX1 ⟨CompType.S16, 10, CompCnt.TEX_ST⟩
     |>.set GXAttr.TEX2 ⟨CompType.S16, 10, CompCnt.TEX_ST⟩
     |>.set GXAttr.TEX3 ⟨CompType.S16, 10, CompCnt.TEX_ST⟩,
   vatRowBase.set GXAttr.POS ⟨CompType.F32, 0, CompCnt.POS_XYZ⟩
     |>.set GXAttr.NRM ⟨CompType.F32, 0, CompCnt.NRM_XYZ⟩
     |>.set GXAttr.CLR0 ⟨CompType.RGBA8, 0, CompCnt.CLR_RGBA⟩
     |>.set GXAttr.TEX0 ⟨CompType.S16, 7, CompCnt.TEX_ST⟩,
   vatRowBase.set GXAttr.POS ⟨CompType.S16, if old then 0 else 3, CompCnt.POS_XYZ⟩
     |>.set GXAttr.NRM ⟨CompType.S8, 0, nrmCnt⟩
     |>.set GXAttr.CLR0 ⟨CompType.RGBA4, 0, CompCnt.CLR_RGBA⟩
     |>.set GXAttr.TEX0 ⟨CompType.S16, 8, CompCnt.TEX_ST⟩
     |>.set GXAttr.TEX1 ⟨CompType.S16, 8, CompCnt.TEX_ST⟩
     |>.set GXAttr.TEX2 ⟨CompType.S16, 8, CompCnt.TEX_ST⟩
     |>.set GXAttr.TEX3 ⟨CompType.S16, 8, CompCnt.TEX_ST⟩,
   vatRowBase.set GXAttr.POS ⟨CompType.S16, 8, CompCnt.POS_XYZ⟩
     |>.set GXAttr.NRM ⟨CompType.S8, 0, nrmCnt⟩
     |>.set GXAttr.CLR0 ⟨CompType.RGBA4, 0, CompCnt.CLR_RGBA⟩
     |>.set GXAttr.TEX0 ⟨CompType.S16, 10, CompCnt.TEX_ST⟩
     |>.set GXAttr.TEX1 ⟨CompType.S16, 10, CompCnt.TEX_ST⟩
     |>.set GXAttr.TEX2 ⟨CompType.S16, 10, CompCnt.TEX_ST⟩
     |>.set GXAttr.TEX3 ⟨CompType.S16, 10, CompCnt.TEX_ST⟩,
   vatRowBase.set GXAttr.POS ⟨CompType.S16, 0, CompCnt.POS_XYZ⟩
     |>.set GXAttr.NRM ⟨CompType.S8, 0, nrmCnt⟩
     |>.set GXAttr.CLR0 ⟨CompType.RGBA4, 0, CompCnt.CLR_RGBA⟩
     |>.set GXAttr.TEX0 ⟨CompType.S16, 10, CompCnt.TEX_ST⟩
     |>.set GXAttr.TEX1 ⟨CompType.S16, 10, CompCnt.TEX_ST⟩
     |>.set GXAttr.TEX2 ⟨CompType.S16, 10, CompCnt.TEX_ST⟩
     |>.set GXAttr.TEX3 ⟨CompType.S16, 10, CompCnt.TEX_ST⟩]

/-- A mutable object heap: cells addressed by allocation index.  Object
identity (JavaScript reference semantics) is a `Nat` address. -/
def cellGet {α : Type} (hp : List α) (r : Nat) (d : α) : α := hp.getD r d

def cellSet {α : Type} (hp : List α) (r : Nat) (v : α) : List α := hp.set r v

/-- Allocate a row of fresh format objects (module initialization of the
`VAT`/`VAT_NBT`/`OLD_VAT`/`OLD_VAT_NBT` tables, lines 195-198). -/
def allocRowVals : List VtxAttrFmt → List VtxAttrFmt → List VtxAttrFmt × List Nat
  | hp, [] => (hp, [])
  | hp, v :: rest =>
    let r := allocRowVals (hp ++ [v]) rest
    (r.1, hp.length :: r.2)

def allocVatVals : List VtxAttrFmt → List (List VtxAttrFmt) →
    List VtxAttrFmt × List (List Nat)
  | hp, [] => (hp, [])
  | hp, row :: rest =>
    let c := allocRowVals hp row
    let r := allocVatVals c.1 rest
    (r.1, c.2 :: r.2)

/-- One step of the deep clone `fmt => ({compType, compShift, compCnt})`
(modelloader.ts lines 905-909): read the base cell, allocate a fresh
object with the same field values. -/
def cloneFmt (hp : List VtxAttrFmt) (ref : Nat) : List VtxAttrFmt × Nat :=
  let fmt := cellGet hp ref {}
  (hp ++ [{ compType := fmt.compType, compShift := fmt.compShift,
            compCnt := fmt.compCnt }], hp.length)

def cloneRow : List VtxAttrFmt → List Nat → List VtxAttrFmt × List Nat
  | hp, [] => (hp, [])
  | hp, ref :: rest =>
    let c := cloneFmt hp ref
    let r := cloneRow c.1 rest
    (r.1, c.2 :: r.2)

def cloneVat : List VtxAttrFmt → List (List Nat) → List VtxAttrFmt × List (List Nat)
  | hp, [] => (hp, [])
  | hp, row :: rest =>
    let c := cloneRow hp row
    let r := cloneVat c.1 rest
    (r.1, c.2 :: r.2)

/-- The old-object-NBT override (lines 912-915): rows 5..7 get POS
compShift 3, written through the CLONED references. -/
def tweakNbtPos (hp : List VtxAttrFmt) (refs : List (List Nat)) : List VtxAttrFmt :=
  [5, 6, 7].foldl (fun h r =>
    let ref := (refs.getD r []).getD GXAttr.POS 0
    cellSet h ref { cellGet h ref {} with compShift := 3 }) hp

/-- The Early3/Early4-map override (lines 923-928): all eight rows get
RGBA4 CLR0, written through the CLONED references. -/
def tweakEarly34Clr (hp : List VtxAttrFmt) (refs : List (List Nat)) :
    List VtxAttrFmt :=
  (List.range 8).foldl (fun h i =>
    let ref := (refs.getD i []).getD GXAttr.CLR0 0
    cellSet h ref
      { cellGet h ref {} with
          compType := CompType.RGBA4, compCnt := CompCnt.CLR_RGBA,
          compShift := 0 }) hp

/-- The per-model VAT preparation of `loadModel` (lines 900-928): deep
clone of the chosen base table, then the two conditional overrides. -/
def cloneAndTweakVat (hp : List VtxAttrFmt) (base : List (List Nat))
    (objNbt e34 : Bool) : List VtxAttrFmt × List (List Nat) :=
  let c := cloneVat hp base
  let h1 := if objNbt then tweakNbtPos c.1 c.2 else c.1
  let h2 := if e34 then tweakEarly34Clr h1 c.2 else h1
  (h2, c.2)

/-- What a decode observes of a VAT table: the dereferenced values. -/
def readVat (hp : List VtxAttrFmt) (base : List (List Nat)) :
    List (List VtxAttrFmt) :=
  base.map (fun row => row.map (fun ref => cellGet hp ref {}))

/-- The mutable part of a per-version FIELDS descriptor relevant to the
`numListBits` patch. -/
structure ModelFields where
  numListBits : Nat := 0
  dlInfoSize : Nat := 0
deriving DecidableEq, Repr

/-- The `numListBits` patch (modelloader.ts lines 678-682): for the
144448-byte Early1 file, `fields = {...fields}` allocates a copy and the
write goes to the copy; otherwise the shared descriptor is used as
is. -/
def fieldsNumListBitsPatch (fh : List ModelFields) (fieldsRef : Nat)
    (isEarly1 : Bool) (byteLength : Nat) : List ModelFields × Nat :=
  if isEarly1 = true ∧ byteLength = 144448 then
    let f := cellGet fh fieldsRef {}
    (fh ++ [{ f with numListBits := 6 }], fh.length)
  else (fh, fieldsRef)

/-- Reading below the old length is unaffected by appended cells. -/
theorem cellGet_append {α : Type} (hp ext : List α) (r : Nat) (d : α)
    (h : r < hp.length) : cellGet (hp ++ ext) r d = cellGet hp r d :=
  List.getD_append hp ext d r h

/-- Writing one cell leaves every other cell unchanged. -/
theorem cellGet_set_ne {α : Type} (hp : List α) (i : Nat) (v : α) (r : Nat) (d : α)
    (hne : i ≠ r) : cellGet (cellSet hp i v) r d = cellGet hp r d := by
  unfold cellGet cellSet
  rw [List.getD_eq_getD_get?, List.getD_eq_getD_get?, List.get?_eq_getElem?,
    List.get?_eq_getElem?, List.getElem?_set_ne hne]

/-- An in-bounds defaulted read is a member of the list. -/
theorem getD_mem_of_lt {α : Type} (l : List α) (d : α) (i : Nat) (h : i < l.length) :
    l.getD i d ∈ l := by
  rw [List.getD_eq_getElem l d h]
  exact List.getElem_mem h

/-- The row clone only appends to the heap. -/
theorem cloneRow_heap (row : List Nat) (hp : List VtxAttrFmt) :
    ∃ ext, (cloneRow hp row).1 = hp ++ ext := by
  induction row generalizing hp with
  | nil => exact ⟨[], by rw [List.append_nil]; rfl⟩
  | cons ref rest ih =>
    obtain ⟨ext, hext⟩ := ih ((cloneFmt hp ref).1)
    refine ⟨{ compType := (cellGet hp ref {}).compType,
              compShift := (cellGet hp ref {}).compShift,
              compCnt := (cellGet hp ref {}).compCnt } :: ext, ?_⟩
    rw [cloneRow]
    dsimp only
    rw [hext]
    unfold cloneFmt
    dsimp only
    rw [List.append_assoc]
    rfl

/-- Cloned row references point past the original heap. -/
theorem cloneRow_refs_ge (row : List Nat) (hp : List VtxAttrFmt) :
    ∀ x ∈ (cloneRow hp row).2, hp.length ≤ x := by
  induction row generalizing hp with
  | nil => intro x hx; cases hx
  | cons ref rest ih =>
    intro x hx
    rw [cloneRow] at hx
    dsimp only at hx
    rcases List.mem_cons.mp hx with rfl | hx
    · exact Nat.le_refl _
    · have := ih ((cloneFmt hp ref).1) x hx
      have hlen : ((cloneFmt hp ref).1).length = hp.length + 1 := by
        unfold cloneFmt
        dsimp only
        rw [List.length_append]
        rfl
      omega

/-- The clone preserves the row length. -/
theorem cloneRow_len (row : List Nat) (hp : List VtxAttrFmt) :
    (cloneRow hp row).2.length = row.length := by
  induction row generalizing hp with
  | nil => rfl
  | cons ref rest ih =>
    rw [cloneRow]
    dsimp only
    rw [List.length_cons, ih]
    rfl

/-- The table clone only appends to the heap. -/
theorem cloneVat_heap (rows : List (List Nat)) (hp : List VtxAttrFmt) :
    ∃ ext, (cloneVat hp rows).1 = hp ++ ext := by
  induction rows generalizing hp with
  | nil => exact ⟨[], by rw [List.append_nil]; rfl⟩
  | cons row rest ih =>
    obtain ⟨e1, he1⟩ := cloneRow_heap row hp
    obtain ⟨e2, he2⟩ := ih ((cloneRow hp row).1)
    refine ⟨e1 ++ e2, ?_⟩
    rw [cloneVat]
    dsimp only
    rw [he2, he1, List.append_assoc]

/-- Cloned table references point past the original heap. -/
theorem cloneVat_refs_ge (rows : List (List Nat)) (hp : List VtxAttrFmt) :
    ∀ row ∈ (cloneVat hp rows).2, ∀ x ∈ row, hp.length ≤ x := by
  induction rows generalizing hp with
  | nil => intro row hrow; cases hrow
  | cons row0 rest ih =>
    intro row hrow x hx
    rw [cloneVat] at hrow
    dsimp only at hrow
    rcases List.mem_cons.mp hrow with rfl | hrow
    · exact cloneRow_refs_ge row0 hp x hx
    · have := ih ((cloneRow hp row0).1) row hrow x hx
      obtain ⟨ext, hext⟩ := cloneRow_heap row0 hp
      rw [hext, List.length_append] at this
      omega

/-- The clone preserves the number of rows. -/
theorem cloneVat_len (rows : List (List Nat)) (hp : List VtxAttrFmt) :
    (cloneVat hp rows).2.length = rows.length := by
  induction rows generalizing hp with
  | nil => rfl
  | cons row rest ih =>
    rw [cloneVat]
    dsimp only
    rw [List.length_cons, ih]
    rfl

/-- Every cloned row has the length of some base row. -/
theorem cloneVat_row_lengths (rows : List (List Nat)) (hp : List VtxAttrFmt) :
    ∀ row ∈ (cloneVat hp rows).2, ∃ row0, row0 ∈ rows ∧ row.length = row0.length := by
  induction rows generalizing hp with
  | nil => intro row hrow; cases hrow
  | cons row0 rest ih =>
    intro row hrow
    rw [cloneVat] at hrow
    dsimp only at hrow
    rcases List.mem_cons.mp hrow with rfl | hrow
    · exact ⟨row0, List.mem_cons_self _ _, cloneRow_len row0 hp⟩
    · obtain ⟨r0, hr0, hl⟩ := ih ((cloneRow hp row0).1) row hrow
      exact ⟨r0, List.mem_cons_of_mem _ hr0, hl⟩

/-- The NBT position-shift override writes only cells at or past `n`
when all references are. -/
theorem tweakNbtPos_frame (h : List VtxAttrFmt) (refs : List (List Nat)) (n r : Nat)
    (d : VtxAttrFmt)
    (hge : ∀ row ∈ refs, ∀ x ∈ row, n ≤ x)
    (h8 : refs.length = 8)
    (hrl : ∀ row ∈ refs, row.length = GXAttr.MAX + 1)
    (hr : r < n) :
    cellGet (tweakNbtPos h refs) r d = cellGet h r d := by
  have hmem : ∀ k, k < 8 → n ≤ (refs.getD k []).getD GXAttr.POS 0 := by
    intro k hk
    have hrow : refs.getD k [] ∈ refs := getD_mem_of_lt refs [] k (by omega)
    have hlen : (refs.getD k []).length = GXAttr.MAX + 1 := hrl _ hrow
    exact hge _ hrow _ (getD_mem_of_lt _ 0 GXAttr.POS (by rw [hlen]; decide))
  have h5 := hmem 5 (by omega)
  have h6 := hmem 6 (by omega)
  have h7 := hmem 7 (by omega)
  unfold tweakNbtPos
  simp only [List.foldl_cons, List.foldl_nil]
  rw [cellGet_set_ne _ _ _ _ _ (by omega), cellGet_set_ne _ _ _ _ _ (by omega),
    cellGet_set_ne _ _ _ _ _ (by omega)]

/-- The RGBA4 color override writes only cells at or past `n` when all
references are. -/
theorem tweakEarly34Clr_frame (h : List VtxAttrFmt) (refs : List (List Nat)) (n r : Nat)
    (d : VtxAttrFmt)
    (hge : ∀ row ∈ refs, ∀ x ∈ row, n ≤ x)
    (h8 : refs.length = 8)
    (hrl : ∀ row ∈ refs, row.length = GXAttr.MAX + 1)
    (hr : r < n) :
    cellGet (tweakEarly34Clr h refs) r d = cellGet h r d := by
  have hmem : ∀ k, k < 8 → n ≤ (refs.getD k []).getD GXAttr.CLR0 0 := by
    intro k hk
    have hrow : refs.getD k [] ∈ refs := getD_mem_of_lt refs [] k (by omega)
    have hlen : (refs.getD k []).length = GXAttr.MAX + 1 := hrl _ hrow
    exact hge _ hrow _ (getD_mem_of_lt _ 0 GXAttr.CLR0 (by rw [hlen]; decide))
  have h0 := hmem 0 (by omega)
  have h1 := hmem 1 (by omega)
  have h2 := hmem 2 (by omega)
  have h3 := hmem 3 (by omega)
  have h4 := hmem 4 (by omega)
  have h5 := hmem 5 (by omega)
  have h6 := hmem 6 (by omega)
  have h7 := hmem 7 (by omega)
  unfold tweakEarly34Clr
  have hrg : List.range 8 = [0, 1, 2, 3, 4, 5, 6, 7] := rfl
  rw [hrg]
  simp only [List.foldl_cons, List.foldl_nil]
  rw [cellGet_set_ne _ _ _ _ _ (by omega), cellGet_set_ne _ _ _ _ _ (by omega),
    cellGet_set_ne _ _ _ _ _ (by omega), cellGet_set_ne _ _ _ _ _ (by omega),
    cellGet_set_ne _ _ _ _ _ (by omega), cellGet_set_ne _ _ _ _ _ (by omega),
    cellGet_set_ne _ _ _ _ _ (by omega), cellGet_set_ne _ _ _ _ _ (by omega)]

/-- C10: the per-model VAT preparation (deep clone plus NBT/RGBA4
overrides) leaves every pre-existing heap cell — in particular the
module-level VAT preset tables — unchanged; the `numListBits` patch
leaves every pre-existing fields cell unchanged; hence a second decode
reading the same base references observes identical tables; and the
patched descriptor value is the original with only `numListBits` set
to 6, exactly for the 144448-byte Early1 file. -/
theorem c10_global_tables_unchanged (hp : List VtxAttrFmt) (base : List (List Nat))
    (objNbt e34 : Bool) (fh : List ModelFields) (fref : Nat) (e1 : Bool) (len : Nat)
    (h8 : base.length = 8)
    (hrl : ∀ row ∈ base, row.length = GXAttr.MAX + 1)
    (hlt : ∀ row ∈ base, ∀ x ∈ row, x < hp.length)
    (hfr : fref < fh.length) :
    (∀ r, r < hp.length → ∀ d,
      cellGet ((cloneAndTweakVat hp base objNbt e34).1) r d = cellGet hp r d) ∧
    (∀ r, r < fh.length → ∀ d,
      cellGet ((fieldsNumListBitsPatch fh fref e1 len).1) r d = cellGet fh r d) ∧
    readVat ((cloneAndTweakVat hp base objNbt e34).1) base = readVat hp base ∧
    cellGet ((fieldsNumListBitsPatch fh fref e1 len).1)
        ((fieldsNumListBitsPatch fh fref e1 len).2) {} =
      (if e1 = true ∧ len = 144448 then
        { cellGet fh fref {} with numListBits := 6 }
      else cellGet fh fref {}) := by
  obtain ⟨ext, hext⟩ := cloneVat_heap base hp
  have hrefs_ge := cloneVat_refs_ge base hp
  have hlen2 : (cloneVat hp base).2.length = 8 := by rw [cloneVat_len, h8]
  have hrl2 : ∀ row ∈ (cloneVat hp base).2, row.length = GXAttr.MAX + 1 := by
    intro row hrow
    obtain ⟨row0, hrow0, hl⟩ := cloneVat_row_lengths base hp row hrow
    rw [hl]
    exact hrl row0 hrow0
  have hframe : ∀ r, r < hp.length → ∀ d,
      cellGet ((cloneAndTweakVat hp base objNbt e34).1) r d = cellGet hp r d := by
    intro r hr d
    unfold cloneAndTweakVat
    dsimp only
    have hc : ∀ d2, cellGet ((cloneVat hp base).1) r d2 = cellGet hp r d2 := by
      intro d2
      rw [hext]
      exact cellGet_append hp ext r d2 hr
    split_ifs with ho he hn
    · rw [tweakEarly34Clr_frame _ _ hp.length r d hrefs_ge hlen2 hrl2 hr,
        tweakNbtPos_frame _ _ hp.length r d hrefs_ge hlen2 hrl2 hr, hc]
    · rw [tweakEarly34Clr_frame _ _ hp.length r d hrefs_ge hlen2 hrl2 hr, hc]
    · rw [tweakNbtPos_frame _ _ hp.length r d hrefs_ge hlen2 hrl2 hr, hc]
    · exact hc d
  refine ⟨hframe, ?_, ?_, ?_⟩
  · intro r hr d
    unfold fieldsNumListBitsPatch
    split_ifs with hcond
    · exact cellGet_append fh _ r d hr
    · rfl
  · unfold readVat
    refine List.map_congr_left ?_
    intro row hrow
    refine List.map_congr_left ?_
    intro ref href
    exact hframe ref (hlt row hrow ref href) {}
  · unfold fieldsNumListBitsPatch
    split_ifs with hcond
    · dsimp only
      unfold cellGet
      rw [List.getD_append_right fh _ _ _ (Nat.le_refl _), Nat.sub_self]
      rfl
    · rfl

/-- The `OLD_VAT_NBT` module table, allocated on an empty heap. -/
def sfaOldVatNbtInit : List VtxAttrFmt × List (List Nat) :=
  allocVatVals [] (generateVat true true)

/-- A fields heap holding the Early1 descriptor (numListBits 8,
dlInfoSize 0x34). -/
def sfaFieldsHeap : List ModelFields := [{ numListBits := 8, dlInfoSize := 0x34 }]

set_option maxRecDepth 100000 in
/-- Witness for C10 on the concrete `OLD_VAT_NBT` table and the Early1
fields descriptor. -/
theorem c10_global_tables_unchanged_witness :
    cellGet ((cloneAndTweakVat sfaOldVatNbtInit.1 sfaOldVatNbtInit.2 true true).1) 0 {} =
      cellGet sfaOldVatNbtInit.1 0 {} ∧
    cellGet ((fieldsNumListBitsPatch sfaFieldsHeap 0 true 144448).1) 0 {} =
      cellGet sfaFieldsHeap 0 {} ∧
    readVat ((cloneAndTweakVat sfaOldVatNbtInit.1 sfaOldVatNbtInit.2 true true).1)
        sfaOldVatNbtInit.2 = readVat sfaOldVatNbtInit.1 sfaOldVatNbtInit.2 ∧
    cellGet ((fieldsNumListBitsPatch sfaFieldsHeap 0 true 144448).1)
        ((fieldsNumListBitsPatch sfaFieldsHeap 0 true 144448).2) {} =
      (if (true : Bool) = true ∧ 144448 = 144448 then
        { cellGet sfaFieldsHeap 0 {} with numListBits := 6 }
      else cellGet sfaFieldsHeap 0 {}) :=
  have h := c10_global_tables_unchanged sfaOldVatNbtInit.1 sfaOldVatNbtInit.2 true true
    sfaFieldsHeap 0 true 144448 (by decide) (by decide) (by decide) (by decide)
  ⟨h.1 0 (by decide) {}, h.2.1 0 (by decide) {}, h.2.2.1, h.2.2.2⟩


end SFA
